import Mathlib

/-!
Verification of the componentized filesystem capability filters: the
Confinement ("chroot"), Read-Only Guard ("readonly") and Tracer ("tracing")
components, each of which wraps a filesystem provider and re-exports the
same descriptor interface.

The provider's vocabulary (`wasi::filesystem::types`, namespace `Prov` here)
and the exported vocabulary (`exports::wasi::filesystem::types`, namespace
`Exp` here) are two structurally identical but nominally distinct families
of types; the components translate between them with the mapper functions
(`error_code_map`, `descriptor_type_map`, ...).  The three Rust source files
contain textually identical copies of the vocabulary types and mapper
functions (generated from the same WIT definitions); they are embedded once
here and shared by the three component embeddings.

The provider itself is out of scope of the repository and is modelled as an
abstract state machine (`Provider`): a record of one transition function per
operation of the capability interface, over an arbitrary state type.
Descriptor, stream and io-stream handles of the provider are modelled as
natural numbers.  Bytes are modelled as naturals (the components never
inspect buffer contents, they pass them through verbatim).
-/

deriving instance DecidableEq for Except

namespace CFS

/-- Timestamps (wasi:clocks datetime): the same nominal type on both sides of
the boundary; the components pass datetime values through verbatim. -/
structure Datetime where
  seconds : Nat
  nanoseconds : Nat
deriving DecidableEq

namespace Prov

/-- Provider-side error-code enum (`wasi::filesystem::types::ErrorCode`),
one constructor per case, in declaration order. -/
inductive ErrorCode where
  | Access | WouldBlock | Already | BadDescriptor | Busy | Deadlock | Quota | Exist
  | FileTooLarge | IllegalByteSequence | InProgress | Interrupted | Invalid | Io
  | IsDirectory | Loop | TooManyLinks | MessageSize | NameTooLong | NoDevice
  | NoEntry | NoLock | InsufficientMemory | InsufficientSpace | NotDirectory
  | NotEmpty | NotRecoverable | Unsupported | NoTty | NoSuchDevice | Overflow
  | NotPermitted | Pipe | ReadOnly | InvalidSeek | TextFileBusy | CrossDevice
deriving DecidableEq, Fintype

/-- Provider-side descriptor-type enum. -/
inductive DescriptorType where
  | Unknown | BlockDevice | CharacterDevice | Directory | Fifo | SymbolicLink
  | RegularFile | Socket
deriving DecidableEq, Fintype

/-- Provider-side advisory-information enum. -/
inductive Advice where
  | Normal | Sequential | Random | WillNeed | DontNeed | NoReuse
deriving DecidableEq, Fintype

/-- Provider-side new-timestamp variant. -/
inductive NewTimestamp where
  | NoChange
  | Now
  | Timestamp (d : Datetime)
deriving DecidableEq

/-- Provider-side descriptor-flags bitset.  Field order follows the WIT flags
declaration order, so `read` is bit 0, ..., `mutate_directory` is bit 5. -/
structure DescriptorFlags where
  read : Bool
  write : Bool
  file_integrity_sync : Bool
  data_integrity_sync : Bool
  requested_write_sync : Bool
  mutate_directory : Bool
deriving DecidableEq, Fintype

/-- Provider-side open-flags bitset: `create` is bit 0, ..., `truncate` bit 3. -/
structure OpenFlags where
  create : Bool
  directory : Bool
  exclusive : Bool
  truncate : Bool
deriving DecidableEq, Fintype

/-- Provider-side path-flags bitset: `symlink_follow` is bit 0. -/
structure PathFlags where
  symlink_follow : Bool
deriving DecidableEq, Fintype

/-- Provider-side stat record. -/
structure DescriptorStat where
  type_ : DescriptorType
  link_count : Nat
  size : Nat
  data_access_timestamp : Option Datetime
  data_modification_timestamp : Option Datetime
  status_change_timestamp : Option Datetime
deriving DecidableEq

/-- Provider-side directory-entry record. -/
structure DirectoryEntry where
  name : String
  type_ : DescriptorType
deriving DecidableEq

/-- Provider-side metadata-hash record: two 64-bit components. -/
structure MetadataHashValue where
  lower : Nat
  upper : Nat
deriving DecidableEq

/-- Bit pattern of a provider descriptor-flags value (`.bits()` in bitflags). -/
def DescriptorFlags.bits (f : DescriptorFlags) : Nat :=
  cond f.read 1 0 + cond f.write 2 0 + cond f.file_integrity_sync 4 0 +
    cond f.data_integrity_sync 8 0 + cond f.requested_write_sync 16 0 +
    cond f.mutate_directory 32 0

/-- The bitflags `from_bits` constructor: `none` when the bit pattern contains
a bit with no corresponding flag. -/
def DescriptorFlags.ofBits (n : Nat) : Option DescriptorFlags :=
  if n < 64 then
    some ⟨n.testBit 0, n.testBit 1, n.testBit 2, n.testBit 3, n.testBit 4, n.testBit 5⟩
  else none

/-- Bit pattern of a provider open-flags value. -/
def OpenFlags.bits (f : OpenFlags) : Nat :=
  cond f.create 1 0 + cond f.directory 2 0 + cond f.exclusive 4 0 + cond f.truncate 8 0

/-- The bitflags `from_bits` constructor for provider open-flags. -/
def OpenFlags.ofBits (n : Nat) : Option OpenFlags :=
  if n < 16 then some ⟨n.testBit 0, n.testBit 1, n.testBit 2, n.testBit 3⟩ else none

/-- Bit pattern of a provider path-flags value. -/
def PathFlags.bits (f : PathFlags) : Nat :=
  cond f.symlink_follow 1 0

/-- The bitflags `from_bits` constructor for provider path-flags. -/
def PathFlags.ofBits (n : Nat) : Option PathFlags :=
  if n < 2 then some ⟨n.testBit 0⟩ else none

/-- The `types::PathFlags::SYMLINK_FOLLOW` constant. -/
def PathFlags.SYMLINK_FOLLOW : PathFlags := ⟨true⟩

/-- The `types::OpenFlags::DIRECTORY` constant. -/
def OpenFlags.DIRECTORY : OpenFlags := ⟨false, true, false, false⟩

/-- The `types::DescriptorFlags::READ` constant. -/
def DescriptorFlags.READ : DescriptorFlags := ⟨true, false, false, false, false, false⟩

end Prov

namespace Exp

/-- Exported error-code enum (`exports::wasi::filesystem::types::ErrorCode`):
structurally identical to the provider's, nominally distinct. -/
inductive ErrorCode where
  | Access | WouldBlock | Already | BadDescriptor | Busy | Deadlock | Quota | Exist
  | FileTooLarge | IllegalByteSequence | InProgress | Interrupted | Invalid | Io
  | IsDirectory | Loop | TooManyLinks | MessageSize | NameTooLong | NoDevice
  | NoEntry | NoLock | InsufficientMemory | InsufficientSpace | NotDirectory
  | NotEmpty | NotRecoverable | Unsupported | NoTty | NoSuchDevice | Overflow
  | NotPermitted | Pipe | ReadOnly | InvalidSeek | TextFileBusy | CrossDevice
deriving DecidableEq, Fintype

/-- Exported descriptor-type enum. -/
inductive DescriptorType where
  | Unknown | BlockDevice | CharacterDevice | Directory | Fifo | SymbolicLink
  | RegularFile | Socket
deriving DecidableEq, Fintype

/-- Exported advisory-information enum. -/
inductive Advice where
  | Normal | Sequential | Random | WillNeed | DontNeed | NoReuse
deriving DecidableEq, Fintype

/-- Exported new-timestamp variant. -/
inductive NewTimestamp where
  | NoChange
  | Now
  | Timestamp (d : Datetime)
deriving DecidableEq

/-- Exported descriptor-flags bitset, same bit layout as the provider's. -/
structure DescriptorFlags where
  read : Bool
  write : Bool
  file_integrity_sync : Bool
  data_integrity_sync : Bool
  requested_write_sync : Bool
  mutate_directory : Bool
deriving DecidableEq, Fintype

/-- Exported open-flags bitset. -/
structure OpenFlags where
  create : Bool
  directory : Bool
  exclusive : Bool
  truncate : Bool
deriving DecidableEq, Fintype

/-- Exported path-flags bitset. -/
structure PathFlags where
  symlink_follow : Bool
deriving DecidableEq, Fintype

/-- Exported stat record. -/
structure DescriptorStat where
  type_ : DescriptorType
  link_count : Nat
  size : Nat
  data_access_timestamp : Option Datetime
  data_modification_timestamp : Option Datetime
  status_change_timestamp : Option Datetime
deriving DecidableEq

/-- Exported directory-entry record. -/
structure DirectoryEntry where
  name : String
  type_ : DescriptorType
deriving DecidableEq

/-- Exported metadata-hash record. -/
structure MetadataHashValue where
  lower : Nat
  upper : Nat
deriving DecidableEq

/-- Bit pattern of an exported descriptor-flags value. -/
def DescriptorFlags.bits (f : DescriptorFlags) : Nat :=
  cond f.read 1 0 + cond f.write 2 0 + cond f.file_integrity_sync 4 0 +
    cond f.data_integrity_sync 8 0 + cond f.requested_write_sync 16 0 +
    cond f.mutate_directory 32 0

/-- The bitflags `from_bits` constructor for exported descriptor-flags. -/
def DescriptorFlags.ofBits (n : Nat) : Option DescriptorFlags :=
  if n < 64 then
    some ⟨n.testBit 0, n.testBit 1, n.testBit 2, n.testBit 3, n.testBit 4, n.testBit 5⟩
  else none

/-- Bit pattern of an exported open-flags value. -/
def OpenFlags.bits (f : OpenFlags) : Nat :=
  cond f.create 1 0 + cond f.directory 2 0 + cond f.exclusive 4 0 + cond f.truncate 8 0

/-- The bitflags `from_bits` constructor for exported open-flags. -/
def OpenFlags.ofBits (n : Nat) : Option OpenFlags :=
  if n < 16 then some ⟨n.testBit 0, n.testBit 1, n.testBit 2, n.testBit 3⟩ else none

/-- Bit pattern of an exported path-flags value. -/
def PathFlags.bits (f : PathFlags) : Nat :=
  cond f.symlink_follow 1 0

/-- The bitflags `from_bits` constructor for exported path-flags. -/
def PathFlags.ofBits (n : Nat) : Option PathFlags :=
  if n < 2 then some ⟨n.testBit 0⟩ else none

/-- The bitflags `contains` test on exported open-flags: all bits of `g` are
set in `f` (in bitflags, `f.bits & g.bits == g.bits`). -/
def OpenFlags.contains (f g : OpenFlags) : Bool :=
  (!g.create || f.create) && (!g.directory || f.directory) &&
    (!g.exclusive || f.exclusive) && (!g.truncate || f.truncate)

/-- The bitflags `contains` test on exported descriptor-flags. -/
def DescriptorFlags.contains (f g : DescriptorFlags) : Bool :=
  (!g.read || f.read) && (!g.write || f.write) &&
    (!g.file_integrity_sync || f.file_integrity_sync) &&
    (!g.data_integrity_sync || f.data_integrity_sync) &&
    (!g.requested_write_sync || f.requested_write_sync) &&
    (!g.mutate_directory || f.mutate_directory)

/-- The bitflags `difference` operation on exported descriptor-flags
(in bitflags, `f.bits & !g.bits`). -/
def DescriptorFlags.difference (f g : DescriptorFlags) : DescriptorFlags :=
  ⟨f.read && !g.read, f.write && !g.write,
    f.file_integrity_sync && !g.file_integrity_sync,
    f.data_integrity_sync && !g.data_integrity_sync,
    f.requested_write_sync && !g.requested_write_sync,
    f.mutate_directory && !g.mutate_directory⟩

/-- The `OpenFlags::CREATE` constant. -/
def OpenFlags.CREATE : OpenFlags := ⟨true, false, false, false⟩

/-- The `OpenFlags::EXCLUSIVE` constant. -/
def OpenFlags.EXCLUSIVE : OpenFlags := ⟨false, false, true, false⟩

/-- The `OpenFlags.TRUNCATE` constant. -/
def OpenFlags.TRUNCATE : OpenFlags := ⟨false, false, false, true⟩

/-- The `DescriptorFlags::WRITE` constant. -/
def DescriptorFlags.WRITE : DescriptorFlags := ⟨false, true, false, false, false, false⟩

/-- The `DescriptorFlags::FILE_INTEGRITY_SYNC` constant. -/
def DescriptorFlags.FILE_INTEGRITY_SYNC : DescriptorFlags :=
  ⟨false, false, true, false, false, false⟩

/-- The `DescriptorFlags::DATA_INTEGRITY_SYNC` constant. -/
def DescriptorFlags.DATA_INTEGRITY_SYNC : DescriptorFlags :=
  ⟨false, false, false, true, false, false⟩

/-- The `DescriptorFlags::REQUESTED_WRITE_SYNC` constant. -/
def DescriptorFlags.REQUESTED_WRITE_SYNC : DescriptorFlags :=
  ⟨false, false, false, false, true, false⟩

/-- The `DescriptorFlags::MUTATE_DIRECTORY` constant. -/
def DescriptorFlags.MUTATE_DIRECTORY : DescriptorFlags :=
  ⟨false, false, false, false, false, true⟩

end Exp

/-- The `error_code_map` function, identical in all three components:
translates the provider's error codes into the exported vocabulary,
case by identically-named case. -/
def error_code_map (error_code : Prov.ErrorCode) : Exp.ErrorCode :=
  match error_code with
  | .Access => .Access
  | .WouldBlock => .WouldBlock
  | .Already => .Already
  | .BadDescriptor => .BadDescriptor
  | .Busy => .Busy
  | .Deadlock => .Deadlock
  | .Quota => .Quota
  | .Exist => .Exist
  | .FileTooLarge => .FileTooLarge
  | .IllegalByteSequence => .IllegalByteSequence
  | .InProgress => .InProgress
  | .Interrupted => .Interrupted
  | .Invalid => .Invalid
  | .Io => .Io
  | .IsDirectory => .IsDirectory
  | .Loop => .Loop
  | .TooManyLinks => .TooManyLinks
  | .MessageSize => .MessageSize
  | .NameTooLong => .NameTooLong
  | .NoDevice => .NoDevice
  | .NoEntry => .NoEntry
  | .NoLock => .NoLock
  | .InsufficientMemory => .InsufficientMemory
  | .InsufficientSpace => .InsufficientSpace
  | .NotDirectory => .NotDirectory
  | .NotEmpty => .NotEmpty
  | .NotRecoverable => .NotRecoverable
  | .Unsupported => .Unsupported
  | .NoTty => .NoTty
  | .NoSuchDevice => .NoSuchDevice
  | .Overflow => .Overflow
  | .NotPermitted => .NotPermitted
  | .Pipe => .Pipe
  | .ReadOnly => .ReadOnly
  | .InvalidSeek => .InvalidSeek
  | .TextFileBusy => .TextFileBusy
  | .CrossDevice => .CrossDevice

/-- The `descriptor_type_map` function, identical in all three components. -/
def descriptor_type_map (descriptor_type : Prov.DescriptorType) : Exp.DescriptorType :=
  match descriptor_type with
  | .Unknown => .Unknown
  | .BlockDevice => .BlockDevice
  | .CharacterDevice => .CharacterDevice
  | .Directory => .Directory
  | .Fifo => .Fifo
  | .SymbolicLink => .SymbolicLink
  | .RegularFile => .RegularFile
  | .Socket => .Socket

/-- The `advice_map_in` function, identical in all three components:
translates an exported advice value into the provider's vocabulary. -/
def advice_map_in (advice : Exp.Advice) : Prov.Advice :=
  match advice with
  | .Normal => .Normal
  | .Sequential => .Sequential
  | .Random => .Random
  | .WillNeed => .WillNeed
  | .DontNeed => .DontNeed
  | .NoReuse => .NoReuse

/-- The `new_timestamp_map_in` function of the chroot and tracing components
(the readonly component denies `set_times` before needing it). -/
def new_timestamp_map_in (new_timestamp : Exp.NewTimestamp) : Prov.NewTimestamp :=
  match new_timestamp with
  | .NoChange => .NoChange
  | .Now => .Now
  | .Timestamp datetime => .Timestamp datetime

/-- The `descriptor_flags_map` function, identical in all three components:
`DescriptorFlags::from_bits(descriptor_flags.bits()).unwrap()`.  The
`unwrap` is modelled by `Option.getD` with an all-clear fallback; the
panic-freedom theorem proves `ofBits` succeeds on every input bit pattern,
so the fallback branch is unreachable. -/
def descriptor_flags_map (descriptor_flags : Prov.DescriptorFlags) : Exp.DescriptorFlags :=
  (Exp.DescriptorFlags.ofBits descriptor_flags.bits).getD
    ⟨false, false, false, false, false, false⟩

/-- The inline `types::DescriptorFlags::from_bits(flags.bits()).unwrap()`
conversion used for descriptor-flags arguments in all three components. -/
def descriptor_flags_in (flags : Exp.DescriptorFlags) : Prov.DescriptorFlags :=
  (Prov.DescriptorFlags.ofBits flags.bits).getD ⟨false, false, false, false, false, false⟩

/-- The inline `types::OpenFlags::from_bits(open_flags.bits()).unwrap()`
conversion used for open-flags arguments. -/
def open_flags_in (open_flags : Exp.OpenFlags) : Prov.OpenFlags :=
  (Prov.OpenFlags.ofBits open_flags.bits).getD ⟨false, false, false, false⟩

/-- The inline `types::PathFlags::from_bits(path_flags.bits()).unwrap()`
conversion used for path-flags arguments. -/
def path_flags_in (path_flags : Exp.PathFlags) : Prov.PathFlags :=
  (Prov.PathFlags.ofBits path_flags.bits).getD ⟨false⟩

/-- The `descriptor_stat_map` function, identical in all three components. -/
def descriptor_stat_map (descriptor_stat : Prov.DescriptorStat) : Exp.DescriptorStat :=
  { type_ := descriptor_type_map descriptor_stat.type_
    link_count := descriptor_stat.link_count
    size := descriptor_stat.size
    data_access_timestamp := descriptor_stat.data_access_timestamp
    data_modification_timestamp := descriptor_stat.data_modification_timestamp
    status_change_timestamp := descriptor_stat.status_change_timestamp }

/-- The `directory_entry_map` function, identical in all three components. -/
def directory_entry_map (directory_entry : Prov.DirectoryEntry) : Exp.DirectoryEntry :=
  { name := directory_entry.name
    type_ := descriptor_type_map directory_entry.type_ }

/-- The `metadata_hash_value_map` function, identical in all three components. -/
def metadata_hash_value_map (metadata_hash_value : Prov.MetadataHashValue) : Exp.MetadataHashValue :=
  { lower := metadata_hash_value.lower
    upper := metadata_hash_value.upper }

/-- WIT case name of a provider error code (used to state that the mapper
sends each case to the identically-named case). -/
def Prov.ErrorCode.caseName : Prov.ErrorCode → String
  | .Access => "access"
  | .WouldBlock => "would-block"
  | .Already => "already"
  | .BadDescriptor => "bad-descriptor"
  | .Busy => "busy"
  | .Deadlock => "deadlock"
  | .Quota => "quota"
  | .Exist => "exist"
  | .FileTooLarge => "file-too-large"
  | .IllegalByteSequence => "illegal-byte-sequence"
  | .InProgress => "in-progress"
  | .Interrupted => "interrupted"
  | .Invalid => "invalid"
  | .Io => "io"
  | .IsDirectory => "is-directory"
  | .Loop => "loop"
  | .TooManyLinks => "too-many-links"
  | .MessageSize => "message-size"
  | .NameTooLong => "name-too-long"
  | .NoDevice => "no-device"
  | .NoEntry => "no-entry"
  | .NoLock => "no-lock"
  | .InsufficientMemory => "insufficient-memory"
  | .InsufficientSpace => "insufficient-space"
  | .NotDirectory => "not-directory"
  | .NotEmpty => "not-empty"
  | .NotRecoverable => "not-recoverable"
  | .Unsupported => "unsupported"
  | .NoTty => "no-tty"
  | .NoSuchDevice => "no-such-device"
  | .Overflow => "overflow"
  | .NotPermitted => "not-permitted"
  | .Pipe => "pipe"
  | .ReadOnly => "read-only"
  | .InvalidSeek => "invalid-seek"
  | .TextFileBusy => "text-file-busy"
  | .CrossDevice => "cross-device"

/-- WIT case name of an exported error code. -/
def Exp.ErrorCode.caseName : Exp.ErrorCode → String
  | .Access => "access"
  | .WouldBlock => "would-block"
  | .Already => "already"
  | .BadDescriptor => "bad-descriptor"
  | .Busy => "busy"
  | .Deadlock => "deadlock"
  | .Quota => "quota"
  | .Exist => "exist"
  | .FileTooLarge => "file-too-large"
  | .IllegalByteSequence => "illegal-byte-sequence"
  | .InProgress => "in-progress"
  | .Interrupted => "interrupted"
  | .Invalid => "invalid"
  | .Io => "io"
  | .IsDirectory => "is-directory"
  | .Loop => "loop"
  | .TooManyLinks => "too-many-links"
  | .MessageSize => "message-size"
  | .NameTooLong => "name-too-long"
  | .NoDevice => "no-device"
  | .NoEntry => "no-entry"
  | .NoLock => "no-lock"
  | .InsufficientMemory => "insufficient-memory"
  | .InsufficientSpace => "insufficient-space"
  | .NotDirectory => "not-directory"
  | .NotEmpty => "not-empty"
  | .NotRecoverable => "not-recoverable"
  | .Unsupported => "unsupported"
  | .NoTty => "no-tty"
  | .NoSuchDevice => "no-such-device"
  | .Overflow => "overflow"
  | .NotPermitted => "not-permitted"
  | .Pipe => "pipe"
  | .ReadOnly => "read-only"
  | .InvalidSeek => "invalid-seek"
  | .TextFileBusy => "text-file-busy"
  | .CrossDevice => "cross-device"

/-- WIT case name of a provider descriptor type. -/
def Prov.DescriptorType.caseName : Prov.DescriptorType → String
  | .Unknown => "unknown"
  | .BlockDevice => "block-device"
  | .CharacterDevice => "character-device"
  | .Directory => "directory"
  | .Fifo => "fifo"
  | .SymbolicLink => "symbolic-link"
  | .RegularFile => "regular-file"
  | .Socket => "socket"

/-- WIT case name of an exported descriptor type. -/
def Exp.DescriptorType.caseName : Exp.DescriptorType → String
  | .Unknown => "unknown"
  | .BlockDevice => "block-device"
  | .CharacterDevice => "character-device"
  | .Directory => "directory"
  | .Fifo => "fifo"
  | .SymbolicLink => "symbolic-link"
  | .RegularFile => "regular-file"
  | .Socket => "socket"

/-- WIT case name of a provider advice value. -/
def Prov.Advice.caseName : Prov.Advice → String
  | .Normal => "normal"
  | .Sequential => "sequential"
  | .Random => "random"
  | .WillNeed => "will-need"
  | .DontNeed => "dont-need"
  | .NoReuse => "no-reuse"

/-- WIT case name of an exported advice value. -/
def Exp.Advice.caseName : Exp.Advice → String
  | .Normal => "normal"
  | .Sequential => "sequential"
  | .Random => "random"
  | .WillNeed => "will-need"
  | .DontNeed => "dont-need"
  | .NoReuse => "no-reuse"

/-- Inverse of `new_timestamp_map_in` (verification artifact used to state
that the mapper is a bijection). -/
def new_timestamp_map_out (new_timestamp : Prov.NewTimestamp) : Exp.NewTimestamp :=
  match new_timestamp with
  | .NoChange => .NoChange
  | .Now => .Now
  | .Timestamp datetime => .Timestamp datetime

/-- The filesystem provider consumed by the three components, modelled at its
interface as an abstract state machine over a state type `σ`: one transition
function per operation of the capability interface.  The first `Nat`
argument of each method is the provider descriptor (or directory-entry
stream) handle on which the operation is invoked; io-stream, descriptor and
stream results are handles.  Quantifying theorems over every `Provider`
expresses that a behaviour holds regardless of what the provider does
(in particular for an instrumented fake provider that records every call in
its state). -/
structure Provider (σ : Type) where
  read_via_stream : σ → Nat → Nat → σ × Except Prov.ErrorCode Nat
  write_via_stream : σ → Nat → Nat → σ × Except Prov.ErrorCode Nat
  append_via_stream : σ → Nat → σ × Except Prov.ErrorCode Nat
  advise : σ → Nat → Nat → Nat → Prov.Advice → σ × Except Prov.ErrorCode Unit
  sync_data : σ → Nat → σ × Except Prov.ErrorCode Unit
  get_flags : σ → Nat → σ × Except Prov.ErrorCode Prov.DescriptorFlags
  get_type : σ → Nat → σ × Except Prov.ErrorCode Prov.DescriptorType
  set_size : σ → Nat → Nat → σ × Except Prov.ErrorCode Unit
  set_times : σ → Nat → Prov.NewTimestamp → Prov.NewTimestamp → σ × Except Prov.ErrorCode Unit
  read : σ → Nat → Nat → Nat → σ × Except Prov.ErrorCode (List Nat × Bool)
  write : σ → Nat → List Nat → Nat → σ × Except Prov.ErrorCode Nat
  read_directory : σ → Nat → σ × Except Prov.ErrorCode Nat
  sync : σ → Nat → σ × Except Prov.ErrorCode Unit
  create_directory_at : σ → Nat → String → σ × Except Prov.ErrorCode Unit
  stat : σ → Nat → σ × Except Prov.ErrorCode Prov.DescriptorStat
  stat_at : σ → Nat → Prov.PathFlags → String → σ × Except Prov.ErrorCode Prov.DescriptorStat
  set_times_at : σ → Nat → Prov.PathFlags → String → Prov.NewTimestamp → Prov.NewTimestamp →
    σ × Except Prov.ErrorCode Unit
  link_at : σ → Nat → Prov.PathFlags → String → Nat → String → σ × Except Prov.ErrorCode Unit
  open_at : σ → Nat → Prov.PathFlags → String → Prov.OpenFlags → Prov.DescriptorFlags →
    σ × Except Prov.ErrorCode Nat
  readlink_at : σ → Nat → String → σ × Except Prov.ErrorCode String
  remove_directory_at : σ → Nat → String → σ × Except Prov.ErrorCode Unit
  rename_at : σ → Nat → String → Nat → String → σ × Except Prov.ErrorCode Unit
  symlink_at : σ → Nat → String → String → σ × Except Prov.ErrorCode Unit
  unlink_file_at : σ → Nat → String → σ × Except Prov.ErrorCode Unit
  is_same_object : σ → Nat → Nat → σ × Bool
  metadata_hash : σ → Nat → σ × Except Prov.ErrorCode Prov.MetadataHashValue
  metadata_hash_at : σ → Nat → Prov.PathFlags → String → σ × Except Prov.ErrorCode Prov.MetadataHashValue
  read_directory_entry : σ → Nat → σ × Except Prov.ErrorCode (Option Prov.DirectoryEntry)

/-- Whether a path string begins with the path separator.  This is both
Rust's `Path::is_absolute` test (on Unix) and the test performed by
`str::strip_prefix("/")`. -/
def strHasLeadingSlash (p : String) : Bool :=
  match p.data with
  | [] => false
  | c :: _ => c = '/'

/-- Removal of the first character of a string (the effect of
`strip_prefix("/")` when the prefix is present). -/
def strDropFirst (p : String) : String := ⟨p.data.drop 1⟩

/-- Whether a path string ends with the path separator (used by the
`PathBuf::push` need-a-separator test). -/
def strHasTrailingSlash (p : String) : Bool :=
  match p.data.getLast? with
  | none => false
  | some c => c = '/'

/-- The `match path.strip_prefix("/")` step of `prefix_path`: strips a single
leading separator if one is present, otherwise leaves the path unchanged. -/
def stripLeadingSlash (p : String) : String :=
  if strHasLeadingSlash p then strDropFirst p else p

/-- Rust `Path::join` (Unix semantics): an absolute right operand replaces
the left; otherwise the right operand is appended, inserting a separator
unless the left is empty or already ends with one. -/
def pathJoin (a b : String) : String :=
  if strHasLeadingSlash b then b
  else if a = "" then b
  else if strHasTrailingSlash a then a ++ b
  else a ++ "/" ++ b

/-- The Read-Only Guard's descriptor wrapper (`ReadOnlyDescriptor` in
`components/readonly/src/lib.rs`): holds the shared reference to one
underlying provider descriptor, modelled by its handle. -/
structure ReadOnlyDescriptor where
  fd : Nat
deriving DecidableEq

/-- The Read-Only Guard's directory-entry-stream wrapper. -/
structure ReadOnlyDirectoryEntryStream where
  des : Nat
deriving DecidableEq

namespace FilesystemReadOnly

/-- The readonly component's `descriptor_map`:
`Descriptor::new(ReadOnlyDescriptor::new(descriptor))`. -/
def descriptor_map (descriptor : Nat) : ReadOnlyDescriptor := ⟨descriptor⟩

/-- The readonly component's `directory_entry_stream_map`:
`DirectoryEntryStream::new(ReadOnlyDirectoryEntryStream::new(...))`. -/
def directory_entry_stream_map (directory_entry_stream : Nat) : ReadOnlyDirectoryEntryStream :=
  ⟨directory_entry_stream⟩

/-- The readonly component's preopen enumeration: wraps every provider
preopen in a `ReadOnlyDescriptor` and re-exports it under its path. -/
def get_directories (dirs : List (Nat × String)) : List (ReadOnlyDescriptor × String) :=
  dirs.map (fun d => (descriptor_map d.1, d.2))

end FilesystemReadOnly

namespace ReadOnlyDescriptor

/-- Denied: `write_via_stream` returns the fixed read-only error without
touching the provider. -/
def write_via_stream {σ : Type} (_P : Provider σ) (_self : ReadOnlyDescriptor) (s : σ)
    (_offset : Nat) : σ × Except Exp.ErrorCode Nat :=
  (s, .error .ReadOnly)

/-- Denied: `append_via_stream`. -/
def append_via_stream {σ : Type} (_P : Provider σ) (_self : ReadOnlyDescriptor) (s : σ) :
    σ × Except Exp.ErrorCode Nat :=
  (s, .error .ReadOnly)

/-- Denied: `sync_data`. -/
def sync_data {σ : Type} (_P : Provider σ) (_self : ReadOnlyDescriptor) (s : σ) :
    σ × Except Exp.ErrorCode Unit :=
  (s, .error .ReadOnly)

/-- Forwarded with post-processing: `get_flags` delegates to the provider,
maps the flags into the exported vocabulary and strips the write,
file-integrity-sync, data-integrity-sync and mutate-directory bits from a
successful result; errors pass through `error_code_map`. -/
def get_flags {σ : Type} (P : Provider σ) (self : ReadOnlyDescriptor) (s : σ) :
    σ × Except Exp.ErrorCode Exp.DescriptorFlags :=
  let r := P.get_flags s self.fd
  (r.1,
    ((r.2.map descriptor_flags_map).map (fun flags =>
      (((flags.difference Exp.DescriptorFlags.WRITE).difference
          Exp.DescriptorFlags.FILE_INTEGRITY_SYNC).difference
          Exp.DescriptorFlags.DATA_INTEGRITY_SYNC).difference
          Exp.DescriptorFlags.MUTATE_DIRECTORY)).mapError error_code_map)

/-- Denied: `set_size`. -/
def set_size {σ : Type} (_P : Provider σ) (_self : ReadOnlyDescriptor) (s : σ)
    (_size : Nat) : σ × Except Exp.ErrorCode Unit :=
  (s, .error .ReadOnly)

/-- Denied: `set_times`. -/
def set_times {σ : Type} (_P : Provider σ) (_self : ReadOnlyDescriptor) (s : σ)
    (_data_access_timestamp _data_modification_timestamp : Exp.NewTimestamp) :
    σ × Except Exp.ErrorCode Unit :=
  (s, .error .ReadOnly)

/-- Denied: `write`. -/
def write {σ : Type} (_P : Provider σ) (_self : ReadOnlyDescriptor) (s : σ)
    (_buffer : List Nat) (_offset : Nat) : σ × Except Exp.ErrorCode Nat :=
  (s, .error .ReadOnly)

/-- Forwarded with re-wrapping: `read_directory` delegates and wraps the
returned provider stream in a `ReadOnlyDirectoryEntryStream`. -/
def read_directory {σ : Type} (P : Provider σ) (self : ReadOnlyDescriptor) (s : σ) :
    σ × Except Exp.ErrorCode ReadOnlyDirectoryEntryStream :=
  let r := P.read_directory s self.fd
  (r.1, (r.2.map FilesystemReadOnly.directory_entry_stream_map).mapError error_code_map)

/-- Denied: `sync`. -/
def sync {σ : Type} (_P : Provider σ) (_self : ReadOnlyDescriptor) (s : σ) :
    σ × Except Exp.ErrorCode Unit :=
  (s, .error .ReadOnly)

/-- Denied: `create_directory_at`. -/
def create_directory_at {σ : Type} (_P : Provider σ) (_self : ReadOnlyDescriptor) (s : σ)
    (_path : String) : σ × Except Exp.ErrorCode Unit :=
  (s, .error .ReadOnly)

/-- Denied: `set_times_at`. -/
def set_times_at {σ : Type} (_P : Provider σ) (_self : ReadOnlyDescriptor) (s : σ)
    (_path_flags : Exp.PathFlags) (_path : String)
    (_data_access_timestamp _data_modification_timestamp : Exp.NewTimestamp) :
    σ × Except Exp.ErrorCode Unit :=
  (s, .error .ReadOnly)

/-- Denied: `link_at`. -/
def link_at {σ : Type} (_P : Provider σ) (_self : ReadOnlyDescriptor) (s : σ)
    (_old_path_flags : Exp.PathFlags) (_old_path : String)
    (_new_descriptor : ReadOnlyDescriptor) (_new_path : String) :
    σ × Except Exp.ErrorCode Unit :=
  (s, .error .ReadOnly)

/-- Gated: `open_at` rejects with the read-only error when the open flags
request create, exclusive or truncate, or the requested descriptor flags
include write or any of the three sync bits; otherwise it forwards and wraps
the returned descriptor in the Read-Only Guard. -/
def open_at {σ : Type} (P : Provider σ) (self : ReadOnlyDescriptor) (s : σ)
    (path_flags : Exp.PathFlags) (path : String) (open_flags : Exp.OpenFlags)
    (flags : Exp.DescriptorFlags) : σ × Except Exp.ErrorCode ReadOnlyDescriptor :=
  if open_flags.contains Exp.OpenFlags.CREATE || open_flags.contains Exp.OpenFlags.EXCLUSIVE ||
      open_flags.contains Exp.OpenFlags.TRUNCATE || flags.contains Exp.DescriptorFlags.WRITE ||
      flags.contains Exp.DescriptorFlags.FILE_INTEGRITY_SYNC ||
      flags.contains Exp.DescriptorFlags.DATA_INTEGRITY_SYNC ||
      flags.contains Exp.DescriptorFlags.REQUESTED_WRITE_SYNC then
    (s, .error .ReadOnly)
  else
    let r := P.open_at s self.fd (path_flags_in path_flags) path (open_flags_in open_flags)
      (descriptor_flags_in flags)
    (r.1, (r.2.map FilesystemReadOnly.descriptor_map).mapError error_code_map)

/-- Denied: `remove_directory_at`. -/
def remove_directory_at {σ : Type} (_P : Provider σ) (_self : ReadOnlyDescriptor) (s : σ)
    (_path : String) : σ × Except Exp.ErrorCode Unit :=
  (s, .error .ReadOnly)

/-- Denied: `rename_at`. -/
def rename_at {σ : Type} (_P : Provider σ) (_self : ReadOnlyDescriptor) (s : σ)
    (_old_path : String) (_new_descriptor : ReadOnlyDescriptor) (_new_path : String) :
    σ × Except Exp.ErrorCode Unit :=
  (s, .error .ReadOnly)

/-- Denied: `symlink_at`. -/
def symlink_at {σ : Type} (_P : Provider σ) (_self : ReadOnlyDescriptor) (s : σ)
    (_old_path _new_path : String) : σ × Except Exp.ErrorCode Unit :=
  (s, .error .ReadOnly)

/-- Denied: `unlink_file_at`. -/
def unlink_file_at {σ : Type} (_P : Provider σ) (_self : ReadOnlyDescriptor) (s : σ)
    (_path : String) : σ × Except Exp.ErrorCode Unit :=
  (s, .error .ReadOnly)

end ReadOnlyDescriptor

/-- The configuration key naming the confinement root
(`const PATH_KEY: &str = "path"` in `components/chroot/src/lib.rs`). -/
def PATH_KEY : String := "path"

/-- The Confinement policy's descriptor wrapper (`FilesystemChrootDescriptor`). -/
structure FilesystemChrootDescriptor where
  fd : Nat
deriving DecidableEq

/-- The Confinement policy's directory-entry-stream wrapper. -/
structure FilesystemChrootDirectoryEntryStream where
  des : Nat
deriving DecidableEq

/-- The chroot component's `prefix_path`: looks up the confinement root in
the configuration store (the lookup result for `PATH_KEY` is passed in as
`store`; `none` models the `expect` panic on a missing key), strips a single
leading separator from `path`, and joins prefix and path with Rust
`Path::join` semantics, starting from the empty path.  The source's
`to_str().unwrap()` cannot fail on UTF-8 strings and is not modelled. -/
def prefix_path (store : Option String) (path : String) : Option String :=
  match store with
  | none => none
  | some path_prefix =>
    let path := stripLeadingSlash path
    some (pathJoin (pathJoin "" path_prefix) path)

namespace FilesystemChroot

/-- The chroot component's `descriptor_map`. -/
def descriptor_map (descriptor : Nat) : FilesystemChrootDescriptor := ⟨descriptor⟩

/-- The chroot component's `directory_entry_stream_map`. -/
def directory_entry_stream_map (directory_entry_stream : Nat) :
    FilesystemChrootDirectoryEntryStream :=
  ⟨directory_entry_stream⟩

/-- The chroot component's preopen resolution: takes the provider's first
preopened directory, computes the confinement root with `prefix_path`, opens
it as a directory (symlink-follow on the path, `DIRECTORY` open flag, `READ`
descriptor flag) relative to the first preopen handle, and exports the
opened directory, policy-wrapped, as the single root named "/".  A `none`
result models the `expect` panics of the source: missing preopen, missing
configuration, or failure to open the computed root. -/
def get_directories {σ : Type} (P : Provider σ) (store : Option String) (s : σ)
    (dirs : List (Nat × String)) :
    Option (σ × List (FilesystemChrootDescriptor × String)) :=
  match dirs.head? with
  | none => none
  | some (fd, path) =>
    match prefix_path store path with
    | none => none
    | some chroot =>
      match P.open_at s fd Prov.PathFlags.SYMLINK_FOLLOW chroot Prov.OpenFlags.DIRECTORY
          Prov.DescriptorFlags.READ with
      | (s1, .ok chroot_fd) => some (s1, [(descriptor_map chroot_fd, "/")])
      | (_, .error _) => none

end FilesystemChroot

namespace FilesystemChrootDescriptor

/-- Forwarded: the chroot `read_directory`, wrapping the returned stream. -/
def read_directory {σ : Type} (P : Provider σ) (self : FilesystemChrootDescriptor) (s : σ) :
    σ × Except Exp.ErrorCode FilesystemChrootDirectoryEntryStream :=
  let r := P.read_directory s self.fd
  (r.1, (r.2.map FilesystemChroot.directory_entry_stream_map).mapError error_code_map)

/-- Forwarded: the chroot `create_directory_at`; the path argument is passed
to the provider verbatim. -/
def create_directory_at {σ : Type} (P : Provider σ) (self : FilesystemChrootDescriptor) (s : σ)
    (path : String) : σ × Except Exp.ErrorCode Unit :=
  let r := P.create_directory_at s self.fd path
  (r.1, r.2.mapError error_code_map)

/-- Forwarded: the chroot `stat_at`. -/
def stat_at {σ : Type} (P : Provider σ) (self : FilesystemChrootDescriptor) (s : σ)
    (path_flags : Exp.PathFlags) (path : String) :
    σ × Except Exp.ErrorCode Exp.DescriptorStat :=
  let r := P.stat_at s self.fd (path_flags_in path_flags) path
  (r.1, (r.2.map descriptor_stat_map).mapError error_code_map)

/-- Forwarded: the chroot `set_times_at`. -/
def set_times_at {σ : Type} (P : Provider σ) (self : FilesystemChrootDescriptor) (s : σ)
    (path_flags : Exp.PathFlags) (path : String)
    (data_access_timestamp data_modification_timestamp : Exp.NewTimestamp) :
    σ × Except Exp.ErrorCode Unit :=
  let r := P.set_times_at s self.fd (path_flags_in path_flags) path
    (new_timestamp_map_in data_access_timestamp) (new_timestamp_map_in data_modification_timestamp)
  (r.1, r.2.mapError error_code_map)

/-- Forwarded: the chroot `link_at`. -/
def link_at {σ : Type} (P : Provider σ) (self : FilesystemChrootDescriptor) (s : σ)
    (old_path_flags : Exp.PathFlags) (old_path : String)
    (new_descriptor : FilesystemChrootDescriptor) (new_path : String) :
    σ × Except Exp.ErrorCode Unit :=
  let r := P.link_at s self.fd (path_flags_in old_path_flags) old_path new_descriptor.fd new_path
  (r.1, r.2.mapError error_code_map)

/-- Forwarded: the chroot `open_at`.  Flags are converted between the
vocabularies; the path argument is passed to the provider verbatim; the
returned descriptor is wrapped in the Confinement policy. -/
def open_at {σ : Type} (P : Provider σ) (self : FilesystemChrootDescriptor) (s : σ)
    (path_flags : Exp.PathFlags) (path : String) (open_flags : Exp.OpenFlags)
    (flags : Exp.DescriptorFlags) : σ × Except Exp.ErrorCode FilesystemChrootDescriptor :=
  let r := P.open_at s self.fd (path_flags_in path_flags) path (open_flags_in open_flags)
    (descriptor_flags_in flags)
  (r.1, (r.2.map FilesystemChroot.descriptor_map).mapError error_code_map)

/-- Forwarded: the chroot `readlink_at`. -/
def readlink_at {σ : Type} (P : Provider σ) (self : FilesystemChrootDescriptor) (s : σ)
    (path : String) : σ × Except Exp.ErrorCode String :=
  let r := P.readlink_at s self.fd path
  (r.1, r.2.mapError error_code_map)

/-- Forwarded: the chroot `remove_directory_at`. -/
def remove_directory_at {σ : Type} (P : Provider σ) (self : FilesystemChrootDescriptor) (s : σ)
    (path : String) : σ × Except Exp.ErrorCode Unit :=
  let r := P.remove_directory_at s self.fd path
  (r.1, r.2.mapError error_code_map)

/-- Forwarded: the chroot `rename_at`. -/
def rename_at {σ : Type} (P : Provider σ) (self : FilesystemChrootDescriptor) (s : σ)
    (old_path : String) (new_descriptor : FilesystemChrootDescriptor) (new_path : String) :
    σ × Except Exp.ErrorCode Unit :=
  let r := P.rename_at s self.fd old_path new_descriptor.fd new_path
  (r.1, r.2.mapError error_code_map)

/-- Forwarded: the chroot `symlink_at`. -/
def symlink_at {σ : Type} (P : Provider σ) (self : FilesystemChrootDescriptor) (s : σ)
    (old_path new_path : String) : σ × Except Exp.ErrorCode Unit :=
  let r := P.symlink_at s self.fd old_path new_path
  (r.1, r.2.mapError error_code_map)

/-- Forwarded: the chroot `unlink_file_at`. -/
def unlink_file_at {σ : Type} (P : Provider σ) (self : FilesystemChrootDescriptor) (s : σ)
    (path : String) : σ × Except Exp.ErrorCode Unit :=
  let r := P.unlink_file_at s self.fd path
  (r.1, r.2.mapError error_code_map)

/-- Forwarded: the chroot `metadata_hash_at`. -/
def metadata_hash_at {σ : Type} (P : Provider σ) (self : FilesystemChrootDescriptor) (s : σ)
    (path_flags : Exp.PathFlags) (path : String) :
    σ × Except Exp.ErrorCode Exp.MetadataHashValue :=
  let r := P.metadata_hash_at s self.fd (path_flags_in path_flags) path
  (r.1, (r.2.map metadata_hash_value_map).mapError error_code_map)

end FilesystemChrootDescriptor

/-- Severity levels of the consumed `wasi:logging` interface. -/
inductive Level where
  | Trace | Debug | Info | Warn | Error | Critical
deriving DecidableEq

/-- One record emitted to the logging sink: severity level, context
(component name) and message. -/
structure LogRecord where
  level : Level
  context : String
  message : String
deriving DecidableEq

/-- The `trace!` macro of the tracing component:
`log(Level::Trace, "filesystem", &format!(...))`. -/
def trace (message : String) : LogRecord :=
  ⟨Level.Trace, "filesystem", message⟩

/-- The Tracer's descriptor wrapper (`TracingDescriptor`). -/
structure TracingDescriptor where
  fd : Nat
deriving DecidableEq

/-- The Tracer's directory-entry-stream wrapper. -/
structure TracingDirectoryEntryStream where
  des : Nat
deriving DecidableEq

/-- The `derive(Debug)` rendering of a `TracingDescriptor` interpolated by
the `{self:?}` format argument.  The wrapped provider descriptor is rendered
as its handle number; the exact rendering of the handle is immaterial to
every theorem below (the claims constrain only the operation name in the
message). -/
def TracingDescriptor.debugRepr (d : TracingDescriptor) : String :=
  "TracingDescriptor \x7b fd: " ++ toString d.fd ++ " \x7d"

/-- The `derive(Debug)` rendering of a `TracingDirectoryEntryStream`. -/
def TracingDirectoryEntryStream.debugRepr (d : TracingDirectoryEntryStream) : String :=
  "TracingDirectoryEntryStream \x7b des: " ++ toString d.des ++ " \x7d"

namespace FilesystemTracing

/-- The tracing component's `descriptor_map`. -/
def descriptor_map (descriptor : Nat) : TracingDescriptor := ⟨descriptor⟩

/-- The tracing component's `directory_entry_stream_map`. -/
def directory_entry_stream_map (directory_entry_stream : Nat) : TracingDirectoryEntryStream :=
  ⟨directory_entry_stream⟩

/-- The tracing component's preopen enumeration: logs one record, then wraps
every provider preopen in a `TracingDescriptor` under its original path. -/
def get_directories (dirs : List (Nat × String)) :
    List LogRecord × List (TracingDescriptor × String) :=
  ([trace "CALL wasi:filesystem/preopens#get-directories"],
    dirs.map (fun d => (descriptor_map d.1, d.2)))

end FilesystemTracing

namespace TracingDescriptor

/-- Traced and forwarded: `read_via_stream`. -/
def read_via_stream {σ : Type} (P : Provider σ) (self : TracingDescriptor) (s : σ)
    (offset : Nat) : σ × List LogRecord × Except Exp.ErrorCode Nat :=
  let r := P.read_via_stream s self.fd offset
  (r.1,
    [trace ("CALL wasi:filesystem/types#descriptor.read-via-stream FD=" ++ self.debugRepr ++
      " OFFSET=" ++ toString offset)],
    r.2.mapError error_code_map)

/-- Traced and forwarded: `write_via_stream`. -/
def write_via_stream {σ : Type} (P : Provider σ) (self : TracingDescriptor) (s : σ)
    (offset : Nat) : σ × List LogRecord × Except Exp.ErrorCode Nat :=
  let r := P.write_via_stream s self.fd offset
  (r.1,
    [trace ("CALL wasi:filesystem/types#descriptor.write-via-stream FD=" ++ self.debugRepr ++
      " OFFSET=" ++ toString offset)],
    r.2.mapError error_code_map)

/-- Traced and forwarded: `append_via_stream`. -/
def append_via_stream {σ : Type} (P : Provider σ) (self : TracingDescriptor) (s : σ) :
    σ × List LogRecord × Except Exp.ErrorCode Nat :=
  let r := P.append_via_stream s self.fd
  (r.1,
    [trace ("CALL wasi:filesystem/types#descriptor.append-via-stream FD=" ++ self.debugRepr)],
    r.2.mapError error_code_map)

/-- Traced and forwarded: `advise`. -/
def advise {σ : Type} (P : Provider σ) (self : TracingDescriptor) (s : σ)
    (offset length : Nat) (advice : Exp.Advice) : σ × List LogRecord × Except Exp.ErrorCode Unit :=
  let r := P.advise s self.fd offset length (advice_map_in advice)
  (r.1,
    [trace ("CALL wasi:filesystem/types#descriptor.advise FD=" ++ self.debugRepr)],
    r.2.mapError error_code_map)

/-- Traced and forwarded: `sync_data`. -/
def sync_data {σ : Type} (P : Provider σ) (self : TracingDescriptor) (s : σ) :
    σ × List LogRecord × Except Exp.ErrorCode Unit :=
  let r := P.sync_data s self.fd
  (r.1,
    [trace ("CALL wasi:filesystem/types#descriptor.sync-data FD=" ++ self.debugRepr)],
    r.2.mapError error_code_map)

/-- Traced and forwarded: `get_flags` (no flag stripping in the Tracer). -/
def get_flags {σ : Type} (P : Provider σ) (self : TracingDescriptor) (s : σ) :
    σ × List LogRecord × Except Exp.ErrorCode Exp.DescriptorFlags :=
  let r := P.get_flags s self.fd
  (r.1,
    [trace ("CALL wasi:filesystem/types#descriptor.get-flags FD=" ++ self.debugRepr)],
    (r.2.map descriptor_flags_map).mapError error_code_map)

/-- Traced and forwarded: `get_type`. -/
def get_type {σ : Type} (P : Provider σ) (self : TracingDescriptor) (s : σ) :
    σ × List LogRecord × Except Exp.ErrorCode Exp.DescriptorType :=
  let r := P.get_type s self.fd
  (r.1,
    [trace ("CALL wasi:filesystem/types#descriptor.get-type FD=" ++ self.debugRepr)],
    (r.2.map descriptor_type_map).mapError error_code_map)

/-- Traced and forwarded: `set_size`. -/
def set_size {σ : Type} (P : Provider σ) (self : TracingDescriptor) (s : σ)
    (size : Nat) : σ × List LogRecord × Except Exp.ErrorCode Unit :=
  let r := P.set_size s self.fd size
  (r.1,
    [trace ("CALL wasi:filesystem/types#descriptor.set-size FD=" ++ self.debugRepr)],
    r.2.mapError error_code_map)

/-- Traced and forwarded: `set_times`. -/
def set_times {σ : Type} (P : Provider σ) (self : TracingDescriptor) (s : σ)
    (data_access_timestamp data_modification_timestamp : Exp.NewTimestamp) :
    σ × List LogRecord × Except Exp.ErrorCode Unit :=
  let r := P.set_times s self.fd (new_timestamp_map_in data_access_timestamp)
    (new_timestamp_map_in data_modification_timestamp)
  (r.1,
    [trace ("CALL wasi:filesystem/types#descriptor.set-times FD=" ++ self.debugRepr)],
    r.2.mapError error_code_map)

/-- Traced and forwarded: `read`. -/
def read {σ : Type} (P : Provider σ) (self : TracingDescriptor) (s : σ)
    (length offset : Nat) : σ × List LogRecord × Except Exp.ErrorCode (List Nat × Bool) :=
  let r := P.read s self.fd length offset
  (r.1,
    [trace ("CALL wasi:filesystem/types#descriptor.read FD=" ++ self.debugRepr)],
    r.2.mapError error_code_map)

/-- Traced and forwarded: `write`. -/
def write {σ : Type} (P : Provider σ) (self : TracingDescriptor) (s : σ)
    (buffer : List Nat) (offset : Nat) : σ × List LogRecord × Except Exp.ErrorCode Nat :=
  let r := P.write s self.fd buffer offset
  (r.1,
    [trace ("CALL wasi:filesystem/types#descriptor.write FD=" ++ self.debugRepr)],
    r.2.mapError error_code_map)

/-- Traced and forwarded: `read_directory`, wrapping the returned stream. -/
def read_directory {σ : Type} (P : Provider σ) (self : TracingDescriptor) (s : σ) :
    σ × List LogRecord × Except Exp.ErrorCode TracingDirectoryEntryStream :=
  let r := P.read_directory s self.fd
  (r.1,
    [trace ("CALL wasi:filesystem/types#descriptor.read-directory FD=" ++ self.debugRepr)],
    (r.2.map FilesystemTracing.directory_entry_stream_map).mapError error_code_map)

/-- Traced and forwarded: `sync`. -/
def sync {σ : Type} (P : Provider σ) (self : TracingDescriptor) (s : σ) :
    σ × List LogRecord × Except Exp.ErrorCode Unit :=
  let r := P.sync s self.fd
  (r.1,
    [trace ("CALL wasi:filesystem/types#descriptor.sync FD=" ++ self.debugRepr)],
    r.2.mapError error_code_map)

/-- Traced and forwarded: `create_directory_at`. -/
def create_directory_at {σ : Type} (P : Provider σ) (self : TracingDescriptor) (s : σ)
    (path : String) : σ × List LogRecord × Except Exp.ErrorCode Unit :=
  let r := P.create_directory_at s self.fd path
  (r.1,
    [trace ("CALL wasi:filesystem/types#descriptor.create-directory-at FD=" ++ self.debugRepr ++
      " PATH=" ++ path)],
    r.2.mapError error_code_map)

/-- Traced and forwarded: `stat`. -/
def stat {σ : Type} (P : Provider σ) (self : TracingDescriptor) (s : σ) :
    σ × List LogRecord × Except Exp.ErrorCode Exp.DescriptorStat :=
  let r := P.stat s self.fd
  (r.1,
    [trace ("CALL wasi:filesystem/types#descriptor.stat FD=" ++ self.debugRepr)],
    (r.2.map descriptor_stat_map).mapError error_code_map)

/-- Traced and forwarded: `stat_at`. -/
def stat_at {σ : Type} (P : Provider σ) (self : TracingDescriptor) (s : σ)
    (path_flags : Exp.PathFlags) (path : String) :
    σ × List LogRecord × Except Exp.ErrorCode Exp.DescriptorStat :=
  let r := P.stat_at s self.fd (path_flags_in path_flags) path
  (r.1,
    [trace ("CALL wasi:filesystem/types#descriptor.stat-at FD=" ++ self.debugRepr ++
      " PATH=" ++ path)],
    (r.2.map descriptor_stat_map).mapError error_code_map)

/-- Traced and forwarded: `set_times_at`. -/
def set_times_at {σ : Type} (P : Provider σ) (self : TracingDescriptor) (s : σ)
    (path_flags : Exp.PathFlags) (path : String)
    (data_access_timestamp data_modification_timestamp : Exp.NewTimestamp) :
    σ × List LogRecord × Except Exp.ErrorCode Unit :=
  let r := P.set_times_at s self.fd (path_flags_in path_flags) path
    (new_timestamp_map_in data_access_timestamp) (new_timestamp_map_in data_modification_timestamp)
  (r.1,
    [trace ("CALL wasi:filesystem/types#descriptor.set-times-at FD=" ++ self.debugRepr ++
      " PATH=" ++ path)],
    r.2.mapError error_code_map)

/-- Traced and forwarded: `link_at`. -/
def link_at {σ : Type} (P : Provider σ) (self : TracingDescriptor) (s : σ)
    (old_path_flags : Exp.PathFlags) (old_path : String) (new_descriptor : TracingDescriptor)
    (new_path : String) : σ × List LogRecord × Except Exp.ErrorCode Unit :=
  let r := P.link_at s self.fd (path_flags_in old_path_flags) old_path new_descriptor.fd new_path
  (r.1,
    [trace ("CALL wasi:filesystem/types#descriptor.link-at FD=" ++ self.debugRepr ++
      " PATH=" ++ old_path)],
    r.2.mapError error_code_map)

/-- Traced and forwarded: `open_at`, wrapping the returned descriptor. -/
def open_at {σ : Type} (P : Provider σ) (self : TracingDescriptor) (s : σ)
    (path_flags : Exp.PathFlags) (path : String) (open_flags : Exp.OpenFlags)
    (flags : Exp.DescriptorFlags) :
    σ × List LogRecord × Except Exp.ErrorCode TracingDescriptor :=
  let r := P.open_at s self.fd (path_flags_in path_flags) path (open_flags_in open_flags)
    (descriptor_flags_in flags)
  (r.1,
    [trace ("CALL wasi:filesystem/types#descriptor.open-at FD=" ++ self.debugRepr ++
      " PATH=" ++ path)],
    (r.2.map FilesystemTracing.descriptor_map).mapError error_code_map)

/-- Traced and forwarded: `readlink_at`. -/
def readlink_at {σ : Type} (P : Provider σ) (self : TracingDescriptor) (s : σ)
    (path : String) : σ × List LogRecord × Except Exp.ErrorCode String :=
  let r := P.readlink_at s self.fd path
  (r.1,
    [trace ("CALL wasi:filesystem/types#descriptor.readlink-at FD=" ++ self.debugRepr ++
      " PATH=" ++ path)],
    r.2.mapError error_code_map)

/-- Traced and forwarded: `remove_directory_at`. -/
def remove_directory_at {σ : Type} (P : Provider σ) (self : TracingDescriptor) (s : σ)
    (path : String) : σ × List LogRecord × Except Exp.ErrorCode Unit :=
  let r := P.remove_directory_at s self.fd path
  (r.1,
    [trace ("CALL wasi:filesystem/types#descriptor.remove-directory-at FD=" ++ self.debugRepr ++
      " PATH=" ++ path)],
    r.2.mapError error_code_map)

/-- Traced and forwarded: `rename_at`. -/
def rename_at {σ : Type} (P : Provider σ) (self : TracingDescriptor) (s : σ)
    (old_path : String) (new_descriptor : TracingDescriptor) (new_path : String) :
    σ × List LogRecord × Except Exp.ErrorCode Unit :=
  let r := P.rename_at s self.fd old_path new_descriptor.fd new_path
  (r.1,
    [trace ("CALL wasi:filesystem/types#descriptor.rename-at FD=" ++ self.debugRepr ++
      " PATH=" ++ old_path)],
    r.2.mapError error_code_map)

/-- Traced and forwarded: `symlink_at`. -/
def symlink_at {σ : Type} (P : Provider σ) (self : TracingDescriptor) (s : σ)
    (old_path new_path : String) : σ × List LogRecord × Except Exp.ErrorCode Unit :=
  let r := P.symlink_at s self.fd old_path new_path
  (r.1,
    [trace ("CALL wasi:filesystem/types#descriptor.symlink-at FD=" ++ self.debugRepr ++
      " PATH=" ++ old_path)],
    r.2.mapError error_code_map)

/-- Traced and forwarded: `unlink_file_at`. -/
def unlink_file_at {σ : Type} (P : Provider σ) (self : TracingDescriptor) (s : σ)
    (path : String) : σ × List LogRecord × Except Exp.ErrorCode Unit :=
  let r := P.unlink_file_at s self.fd path
  (r.1,
    [trace ("CALL wasi:filesystem/types#descriptor.unlink-file-at FD=" ++ self.debugRepr ++
      " PATH=" ++ path)],
    r.2.mapError error_code_map)

/-- Traced and forwarded: `is_same_object` (returns a bare Bool). -/
def is_same_object {σ : Type} (P : Provider σ) (self : TracingDescriptor) (s : σ)
    (other : TracingDescriptor) : σ × List LogRecord × Bool :=
  let r := P.is_same_object s self.fd other.fd
  (r.1,
    [trace ("CALL wasi:filesystem/types#descriptor.is-same-object FD1=" ++ self.debugRepr ++
      " FD2=" ++ other.debugRepr)],
    r.2)

/-- Traced and forwarded: `metadata_hash`. -/
def metadata_hash {σ : Type} (P : Provider σ) (self : TracingDescriptor) (s : σ) :
    σ × List LogRecord × Except Exp.ErrorCode Exp.MetadataHashValue :=
  let r := P.metadata_hash s self.fd
  (r.1,
    [trace ("CALL wasi:filesystem/types#descriptor.metadata-hash FD=" ++ self.debugRepr)],
    (r.2.map metadata_hash_value_map).mapError error_code_map)

/-- Traced and forwarded: `metadata_hash_at`. -/
def metadata_hash_at {σ : Type} (P : Provider σ) (self : TracingDescriptor) (s : σ)
    (path_flags : Exp.PathFlags) (path : String) :
    σ × List LogRecord × Except Exp.ErrorCode Exp.MetadataHashValue :=
  let r := P.metadata_hash_at s self.fd (path_flags_in path_flags) path
  (r.1,
    [trace ("CALL wasi:filesystem/types#descriptor.metadata-hash-at FD=" ++ self.debugRepr ++
      " PATH=" ++ path)],
    (r.2.map metadata_hash_value_map).mapError error_code_map)

end TracingDescriptor

/-- Traced and forwarded: the stream operation `read_directory_entry`. -/
def TracingDirectoryEntryStream.read_directory_entry {σ : Type} (P : Provider σ)
    (self : TracingDirectoryEntryStream) (s : σ) :
    σ × List LogRecord × Except Exp.ErrorCode (Option Exp.DirectoryEntry) :=
  let r := P.read_directory_entry s self.des
  (r.1,
    [trace ("CALL wasi:filesystem/types#read-directory-entry SID=" ++ self.debugRepr)],
    (r.2.map (fun de => de.map directory_entry_map)).mapError error_code_map)

/-- A guest-issued operation on a single open descriptor, used to compare a
sequence of calls through the Tracer with the same sequence issued to the
provider directly.  (Operations returning fresh descriptors or streams are
compared per call instead, since their results live in different types on
the two sides.) -/
inductive FsOp where
  | read_via_stream (offset : Nat)
  | write_via_stream (offset : Nat)
  | append_via_stream
  | sync_data
  | get_flags
  | get_type
  | set_size (size : Nat)
  | read (length offset : Nat)
  | write (buffer : List Nat) (offset : Nat)
  | sync
  | create_directory_at (path : String)
  | stat
  | readlink_at (path : String)
  | remove_directory_at (path : String)
  | symlink_at (old_path new_path : String)
  | unlink_file_at (path : String)
deriving DecidableEq

/-- The result of one `FsOp` in the provider's vocabulary. -/
inductive ProvOut where
  | handle (r : Except Prov.ErrorCode Nat)
  | flags (r : Except Prov.ErrorCode Prov.DescriptorFlags)
  | dtype (r : Except Prov.ErrorCode Prov.DescriptorType)
  | bytes (r : Except Prov.ErrorCode (List Nat × Bool))
  | unit (r : Except Prov.ErrorCode Unit)
  | str (r : Except Prov.ErrorCode String)
deriving DecidableEq

/-- The result of one `FsOp` in the exported vocabulary. -/
inductive ExpOut where
  | handle (r : Except Exp.ErrorCode Nat)
  | flags (r : Except Exp.ErrorCode Exp.DescriptorFlags)
  | dtype (r : Except Exp.ErrorCode Exp.DescriptorType)
  | bytes (r : Except Exp.ErrorCode (List Nat × Bool))
  | unit (r : Except Exp.ErrorCode Unit)
  | str (r : Except Exp.ErrorCode String)
deriving DecidableEq

/-- The structure-preserving translation of a per-operation result from the
provider vocabulary to the exported one (payloads through the type mappers,
errors through `error_code_map`). -/
def out_map : ProvOut → ExpOut
  | .handle r => .handle (r.mapError error_code_map)
  | .flags r => .flags ((r.map descriptor_flags_map).mapError error_code_map)
  | .dtype r => .dtype ((r.map descriptor_type_map).mapError error_code_map)
  | .bytes r => .bytes (r.mapError error_code_map)
  | .unit r => .unit (r.mapError error_code_map)
  | .str r => .str (r.mapError error_code_map)

/-- One `FsOp` issued directly to the provider on handle `fd`. -/
def providerStep {σ : Type} (P : Provider σ) (fd : Nat) (s : σ) : FsOp → σ × ProvOut
  | .read_via_stream offset =>
    let r := P.read_via_stream s fd offset
    (r.1, .handle r.2)
  | .write_via_stream offset =>
    let r := P.write_via_stream s fd offset
    (r.1, .handle r.2)
  | .append_via_stream =>
    let r := P.append_via_stream s fd
    (r.1, .handle r.2)
  | .sync_data =>
    let r := P.sync_data s fd
    (r.1, .unit r.2)
  | .get_flags =>
    let r := P.get_flags s fd
    (r.1, .flags r.2)
  | .get_type =>
    let r := P.get_type s fd
    (r.1, .dtype r.2)
  | .set_size size =>
    let r := P.set_size s fd size
    (r.1, .unit r.2)
  | .read length offset =>
    let r := P.read s fd length offset
    (r.1, .bytes r.2)
  | .write buffer offset =>
    let r := P.write s fd buffer offset
    (r.1, .handle r.2)
  | .sync =>
    let r := P.sync s fd
    (r.1, .unit r.2)
  | .create_directory_at path =>
    let r := P.create_directory_at s fd path
    (r.1, .unit r.2)
  | .stat =>
    let r := P.stat s fd
    (r.1, .dtype (r.2.map (fun st => st.type_)))
  | .readlink_at path =>
    let r := P.readlink_at s fd path
    (r.1, .str r.2)
  | .remove_directory_at path =>
    let r := P.remove_directory_at s fd path
    (r.1, .unit r.2)
  | .symlink_at old_path new_path =>
    let r := P.symlink_at s fd old_path new_path
    (r.1, .unit r.2)
  | .unlink_file_at path =>
    let r := P.unlink_file_at s fd path
    (r.1, .unit r.2)

/-- One `FsOp` issued to the Tracer wrapper `d`, dispatching to the embedded
`TracingDescriptor` operations. -/
def tracingStep {σ : Type} (P : Provider σ) (d : TracingDescriptor) (s : σ) :
    FsOp → σ × List LogRecord × ExpOut
  | .read_via_stream offset =>
    let r := TracingDescriptor.read_via_stream P d s offset
    (r.1, r.2.1, .handle r.2.2)
  | .write_via_stream offset =>
    let r := TracingDescriptor.write_via_stream P d s offset
    (r.1, r.2.1, .handle r.2.2)
  | .append_via_stream =>
    let r := TracingDescriptor.append_via_stream P d s
    (r.1, r.2.1, .handle r.2.2)
  | .sync_data =>
    let r := TracingDescriptor.sync_data P d s
    (r.1, r.2.1, .unit r.2.2)
  | .get_flags =>
    let r := TracingDescriptor.get_flags P d s
    (r.1, r.2.1, .flags r.2.2)
  | .get_type =>
    let r := TracingDescriptor.get_type P d s
    (r.1, r.2.1, .dtype r.2.2)
  | .set_size size =>
    let r := TracingDescriptor.set_size P d s size
    (r.1, r.2.1, .unit r.2.2)
  | .read length offset =>
    let r := TracingDescriptor.read P d s length offset
    (r.1, r.2.1, .bytes r.2.2)
  | .write buffer offset =>
    let r := TracingDescriptor.write P d s buffer offset
    (r.1, r.2.1, .handle r.2.2)
  | .sync =>
    let r := TracingDescriptor.sync P d s
    (r.1, r.2.1, .unit r.2.2)
  | .create_directory_at path =>
    let r := TracingDescriptor.create_directory_at P d s path
    (r.1, r.2.1, .unit r.2.2)
  | .stat =>
    let r := TracingDescriptor.stat P d s
    (r.1, r.2.1, .dtype (r.2.2.map (fun st => st.type_)))
  | .readlink_at path =>
    let r := TracingDescriptor.readlink_at P d s path
    (r.1, r.2.1, .str r.2.2)
  | .remove_directory_at path =>
    let r := TracingDescriptor.remove_directory_at P d s path
    (r.1, r.2.1, .unit r.2.2)
  | .symlink_at old_path new_path =>
    let r := TracingDescriptor.symlink_at P d s old_path new_path
    (r.1, r.2.1, .unit r.2.2)
  | .unlink_file_at path =>
    let r := TracingDescriptor.unlink_file_at P d s path
    (r.1, r.2.1, .unit r.2.2)

/-- A sequence of operations issued directly to the provider; returns the
final state and the list of per-call results. -/
def providerRun {σ : Type} (P : Provider σ) (fd : Nat) : σ → List FsOp → σ × List ProvOut
  | s, [] => (s, [])
  | s, op :: ops =>
    let r := providerStep P fd s op
    let rest := providerRun P fd r.1 ops
    (rest.1, r.2 :: rest.2)

/-- The same sequence of operations issued through the Tracer; returns the
final state, all emitted log records in order, and the per-call results. -/
def tracingRun {σ : Type} (P : Provider σ) (d : TracingDescriptor) :
    σ → List FsOp → σ × List LogRecord × List ExpOut
  | s, [] => (s, [], [])
  | s, op :: ops =>
    let r := tracingStep P d s op
    let rest := tracingRun P d r.1 ops
    (rest.1, r.2.1 ++ rest.2.1, r.2.2 :: rest.2.2)

/-- A fixed stat record returned by the recording test provider. -/
def testStat : Prov.DescriptorStat :=
  ⟨.RegularFile, 1, 42, none, some ⟨7, 8⟩, none⟩

/-- A fixed directory entry returned by the recording test provider. -/
def testEntry : Prov.DirectoryEntry :=
  ⟨"entry", .RegularFile⟩

/-- A concrete provider instance used by witnesses and counterexamples.  Its
state is the list of requests it has served, most recent first, so that the
requests issued by a component (in particular the path strings it passes
down) are observable in the final state. -/
def logProvider : Provider (List String) where
  read_via_stream := fun s fd offset => ("read-via-stream" :: s, .ok (fd + offset))
  write_via_stream := fun s fd offset => ("write-via-stream" :: s, .ok (fd + offset + 1))
  append_via_stream := fun s fd => ("append-via-stream" :: s, .ok (fd + 2))
  advise := fun s _fd _offset _length _advice => ("advise" :: s, .ok ())
  sync_data := fun s _fd => ("sync-data" :: s, .ok ())
  get_flags := fun s _fd => ("get-flags" :: s, .ok ⟨true, true, true, true, true, true⟩)
  get_type := fun s _fd => ("get-type" :: s, .ok .Directory)
  set_size := fun s _fd _size => ("set-size" :: s, .ok ())
  set_times := fun s _fd _a _m => ("set-times" :: s, .ok ())
  read := fun s _fd _length _offset => ("read" :: s, .ok ([1, 2, 3], true))
  write := fun s _fd buffer _offset => ("write" :: s, .ok buffer.length)
  read_directory := fun s fd => ("read-directory" :: s, .ok (fd + 3))
  sync := fun s _fd => ("sync" :: s, .ok ())
  create_directory_at := fun s _fd path => (("create-directory-at " ++ path) :: s, .ok ())
  stat := fun s _fd => ("stat" :: s, .ok testStat)
  stat_at := fun s _fd _pf path => (("stat-at " ++ path) :: s, .ok testStat)
  set_times_at := fun s _fd _pf path _a _m => (("set-times-at " ++ path) :: s, .ok ())
  link_at := fun s _fd _pf old_path _nfd new_path =>
    (("link-at " ++ old_path ++ " " ++ new_path) :: s, .ok ())
  open_at := fun s fd _pf path _of _df => (("open-at " ++ path) :: s, .ok (fd + path.length + 1))
  readlink_at := fun s _fd path => (("readlink-at " ++ path) :: s, .ok path)
  remove_directory_at := fun s _fd path => (("remove-directory-at " ++ path) :: s, .ok ())
  rename_at := fun s _fd old_path _nfd new_path =>
    (("rename-at " ++ old_path ++ " " ++ new_path) :: s, .ok ())
  symlink_at := fun s _fd old_path new_path =>
    (("symlink-at " ++ old_path ++ " " ++ new_path) :: s, .ok ())
  unlink_file_at := fun s _fd path => (("unlink-file-at " ++ path) :: s, .ok ())
  is_same_object := fun s fd other => ("is-same-object" :: s, fd == other)
  metadata_hash := fun s _fd => ("metadata-hash" :: s, .ok ⟨5, 6⟩)
  metadata_hash_at := fun s _fd _pf path => (("metadata-hash-at " ++ path) :: s, .ok ⟨7, 8⟩)
  read_directory_entry := fun s _des => ("read-directory-entry" :: s, .ok (some testEntry))

/-- The `from_bits(bits()).unwrap()` conversion of provider descriptor-flags
into the exported vocabulary is the field-for-field copy. -/
theorem descriptor_flags_map_mirror (f : Prov.DescriptorFlags) :
    descriptor_flags_map f =
      ⟨f.read, f.write, f.file_integrity_sync, f.data_integrity_sync,
        f.requested_write_sync, f.mutate_directory⟩ := by
  revert f
  decide

/-- The `from_bits(bits()).unwrap()` conversion of exported descriptor-flags
into the provider vocabulary is the field-for-field copy. -/
theorem descriptor_flags_in_mirror (f : Exp.DescriptorFlags) :
    descriptor_flags_in f =
      ⟨f.read, f.write, f.file_integrity_sync, f.data_integrity_sync,
        f.requested_write_sync, f.mutate_directory⟩ := by
  revert f
  decide

/-- The open-flags conversion into the provider vocabulary is the
field-for-field copy. -/
theorem open_flags_in_mirror (f : Exp.OpenFlags) :
    open_flags_in f = ⟨f.create, f.directory, f.exclusive, f.truncate⟩ := by
  revert f
  decide

/-- The path-flags conversion into the provider vocabulary is the
field-for-field copy. -/
theorem path_flags_in_mirror (f : Exp.PathFlags) :
    path_flags_in f = ⟨f.symlink_follow⟩ := by
  revert f
  decide

/-- Containment of the singleton `CREATE` bitset tests the `create` bit. -/
theorem contains_CREATE (f : Exp.OpenFlags) :
    f.contains Exp.OpenFlags.CREATE = f.create := by
  simp [Exp.OpenFlags.contains, Exp.OpenFlags.CREATE]

/-- Containment of the singleton `EXCLUSIVE` bitset tests the `exclusive` bit. -/
theorem contains_EXCLUSIVE (f : Exp.OpenFlags) :
    f.contains Exp.OpenFlags.EXCLUSIVE = f.exclusive := by
  simp [Exp.OpenFlags.contains, Exp.OpenFlags.EXCLUSIVE]

/-- Containment of the singleton `TRUNCATE` bitset tests the `truncate` bit. -/
theorem contains_TRUNCATE (f : Exp.OpenFlags) :
    f.contains Exp.OpenFlags.TRUNCATE = f.truncate := by
  simp [Exp.OpenFlags.contains, Exp.OpenFlags.TRUNCATE]

/-- Containment of the singleton `WRITE` bitset tests the `write` bit. -/
theorem contains_WRITE (f : Exp.DescriptorFlags) :
    f.contains Exp.DescriptorFlags.WRITE = f.write := by
  simp [Exp.DescriptorFlags.contains, Exp.DescriptorFlags.WRITE]

/-- Containment of the singleton `FILE_INTEGRITY_SYNC` bitset tests that bit. -/
theorem contains_FILE_INTEGRITY_SYNC (f : Exp.DescriptorFlags) :
    f.contains Exp.DescriptorFlags.FILE_INTEGRITY_SYNC = f.file_integrity_sync := by
  simp [Exp.DescriptorFlags.contains, Exp.DescriptorFlags.FILE_INTEGRITY_SYNC]

/-- Containment of the singleton `DATA_INTEGRITY_SYNC` bitset tests that bit. -/
theorem contains_DATA_INTEGRITY_SYNC (f : Exp.DescriptorFlags) :
    f.contains Exp.DescriptorFlags.DATA_INTEGRITY_SYNC = f.data_integrity_sync := by
  simp [Exp.DescriptorFlags.contains, Exp.DescriptorFlags.DATA_INTEGRITY_SYNC]

/-- Containment of the singleton `REQUESTED_WRITE_SYNC` bitset tests that bit. -/
theorem contains_REQUESTED_WRITE_SYNC (f : Exp.DescriptorFlags) :
    f.contains Exp.DescriptorFlags.REQUESTED_WRITE_SYNC = f.requested_write_sync := by
  simp [Exp.DescriptorFlags.contains, Exp.DescriptorFlags.REQUESTED_WRITE_SYNC]

/-- Stripping a single leading separator from a slash-prefixed path yields
the unprefixed path. -/
theorem stripLeadingSlash_slash_append (p : String) :
    stripLeadingSlash ("/" ++ p) = p := rfl

/-- Stripping is the identity on a path with no leading separator. -/
theorem stripLeadingSlash_of_no_slash (p : String) (h : strHasLeadingSlash p = false) :
    stripLeadingSlash p = p := by
  simp [stripLeadingSlash, h]

/-- C1: every mutating operation on a Read-Only Guard descriptor
(write-via-stream, append-via-stream, sync-data, set-size, set-times, write,
sync, create-directory-at, set-times-at, link-at, remove-directory-at,
rename-at, symlink-at, unlink-file-at) returns the fixed read-only error for
all argument values, invoking no provider operation: for an arbitrary
provider the state is returned unchanged (so an instrumented fake provider
records zero calls). -/
theorem C1_read_only_totality {σ : Type} (P : Provider σ) (self : ReadOnlyDescriptor) (s : σ) :
    (∀ offset, ReadOnlyDescriptor.write_via_stream P self s offset = (s, .error .ReadOnly))
    ∧ ReadOnlyDescriptor.append_via_stream P self s = (s, .error .ReadOnly)
    ∧ ReadOnlyDescriptor.sync_data P self s = (s, .error .ReadOnly)
    ∧ (∀ size, ReadOnlyDescriptor.set_size P self s size = (s, .error .ReadOnly))
    ∧ (∀ a m, ReadOnlyDescriptor.set_times P self s a m = (s, .error .ReadOnly))
    ∧ (∀ buffer offset, ReadOnlyDescriptor.write P self s buffer offset = (s, .error .ReadOnly))
    ∧ ReadOnlyDescriptor.sync P self s = (s, .error .ReadOnly)
    ∧ (∀ path, ReadOnlyDescriptor.create_directory_at P self s path = (s, .error .ReadOnly))
    ∧ (∀ pf path a m, ReadOnlyDescriptor.set_times_at P self s pf path a m =
        (s, .error .ReadOnly))
    ∧ (∀ opf old_path nd new_path, ReadOnlyDescriptor.link_at P self s opf old_path nd new_path =
        (s, .error .ReadOnly))
    ∧ (∀ path, ReadOnlyDescriptor.remove_directory_at P self s path = (s, .error .ReadOnly))
    ∧ (∀ old_path nd new_path, ReadOnlyDescriptor.rename_at P self s old_path nd new_path =
        (s, .error .ReadOnly))
    ∧ (∀ old_path new_path, ReadOnlyDescriptor.symlink_at P self s old_path new_path =
        (s, .error .ReadOnly))
    ∧ (∀ path, ReadOnlyDescriptor.unlink_file_at P self s path = (s, .error .ReadOnly)) :=
  ⟨fun _ => rfl, rfl, rfl, fun _ => rfl, fun _ _ => rfl, fun _ _ => rfl, rfl, fun _ => rfl,
    fun _ _ _ _ => rfl, fun _ _ _ _ => rfl, fun _ => rfl, fun _ _ _ => rfl, fun _ _ => rfl,
    fun _ => rfl⟩

/-- C2: in each of the three components, every descriptor returned by
`open_at`, every directory-entry stream returned by `read_directory`, and
every descriptor enumerated by `get_directories` is the policy wrap of a
handle produced by the provider for that same call; no raw provider handle
is returned in any other form. -/
theorem C2_policy_wrapping {σ : Type} (P : Provider σ) (s : σ) :
    (∀ (self : ReadOnlyDescriptor) pf path of df d,
      (ReadOnlyDescriptor.open_at P self s pf path of df).2 = .ok d →
      ∃ h, d = FilesystemReadOnly.descriptor_map h ∧
        (P.open_at s self.fd (path_flags_in pf) path (open_flags_in of)
          (descriptor_flags_in df)).2 = .ok h)
    ∧ (∀ (self : ReadOnlyDescriptor) st,
      (ReadOnlyDescriptor.read_directory P self s).2 = .ok st →
      ∃ h, st = FilesystemReadOnly.directory_entry_stream_map h ∧
        (P.read_directory s self.fd).2 = .ok h)
    ∧ (∀ (dirs : List (Nat × String)) d p,
      (d, p) ∈ FilesystemReadOnly.get_directories dirs →
      ∃ fd, d = FilesystemReadOnly.descriptor_map fd ∧ (fd, p) ∈ dirs)
    ∧ (∀ (self : FilesystemChrootDescriptor) pf path of df d,
      (FilesystemChrootDescriptor.open_at P self s pf path of df).2 = .ok d →
      ∃ h, d = FilesystemChroot.descriptor_map h ∧
        (P.open_at s self.fd (path_flags_in pf) path (open_flags_in of)
          (descriptor_flags_in df)).2 = .ok h)
    ∧ (∀ (self : FilesystemChrootDescriptor) st,
      (FilesystemChrootDescriptor.read_directory P self s).2 = .ok st →
      ∃ h, st = FilesystemChroot.directory_entry_stream_map h ∧
        (P.read_directory s self.fd).2 = .ok h)
    ∧ (∀ (store : Option String) (dirs : List (Nat × String)) s2 roots,
      FilesystemChroot.get_directories P store s dirs = some (s2, roots) →
      ∃ h, roots = [(FilesystemChroot.descriptor_map h, "/")])
    ∧ (∀ (self : TracingDescriptor) pf path of df d,
      (TracingDescriptor.open_at P self s pf path of df).2.2 = .ok d →
      ∃ h, d = FilesystemTracing.descriptor_map h ∧
        (P.open_at s self.fd (path_flags_in pf) path (open_flags_in of)
          (descriptor_flags_in df)).2 = .ok h)
    ∧ (∀ (self : TracingDescriptor) st,
      (TracingDescriptor.read_directory P self s).2.2 = .ok st →
      ∃ h, st = FilesystemTracing.directory_entry_stream_map h ∧
        (P.read_directory s self.fd).2 = .ok h)
    ∧ (∀ (dirs : List (Nat × String)) d p,
      (d, p) ∈ (FilesystemTracing.get_directories dirs).2 →
      ∃ fd, d = FilesystemTracing.descriptor_map fd ∧ (fd, p) ∈ dirs) := by
  refine ⟨?_, ?_, ?_, ?_, ?_, ?_, ?_, ?_, ?_⟩
  · intro self pf path of df d h
    simp only [ReadOnlyDescriptor.open_at] at h
    split at h
    · simp at h
    · cases hr : (P.open_at s self.fd (path_flags_in pf) path (open_flags_in of)
          (descriptor_flags_in df)).2 with
      | ok fd2 =>
        rw [hr] at h
        simp [Except.map, Except.mapError] at h
        exact ⟨fd2, h.symm, rfl⟩
      | error e =>
        rw [hr] at h
        simp [Except.map, Except.mapError] at h
  · intro self st h
    simp only [ReadOnlyDescriptor.read_directory] at h
    cases hr : (P.read_directory s self.fd).2 with
    | ok h2 =>
      rw [hr] at h
      simp [Except.map, Except.mapError] at h
      exact ⟨h2, h.symm, rfl⟩
    | error e =>
      rw [hr] at h
      simp [Except.map, Except.mapError] at h
  · intro dirs d p h
    simp only [FilesystemReadOnly.get_directories, List.mem_map] at h
    obtain ⟨⟨fd, q⟩, hmem, heq⟩ := h
    obtain ⟨h1, h2⟩ := Prod.mk.injEq .. ▸ heq
    exact ⟨fd, h1.symm, h2 ▸ hmem⟩
  · intro self pf path of df d h
    simp only [FilesystemChrootDescriptor.open_at] at h
    cases hr : (P.open_at s self.fd (path_flags_in pf) path (open_flags_in of)
        (descriptor_flags_in df)).2 with
    | ok fd2 =>
      rw [hr] at h
      simp [Except.map, Except.mapError] at h
      exact ⟨fd2, h.symm, rfl⟩
    | error e =>
      rw [hr] at h
      simp [Except.map, Except.mapError] at h
  · intro self st h
    simp only [FilesystemChrootDescriptor.read_directory] at h
    cases hr : (P.read_directory s self.fd).2 with
    | ok h2 =>
      rw [hr] at h
      simp [Except.map, Except.mapError] at h
      exact ⟨h2, h.symm, rfl⟩
    | error e =>
      rw [hr] at h
      simp [Except.map, Except.mapError] at h
  · intro store dirs s2 roots h
    rcases dirs with _ | ⟨⟨fd, path⟩, rest⟩
    · simp [FilesystemChroot.get_directories] at h
    · cases hp : prefix_path store path with
      | none => simp [FilesystemChroot.get_directories, hp] at h
      | some chroot =>
        rcases hr : P.open_at s fd Prov.PathFlags.SYMLINK_FOLLOW chroot Prov.OpenFlags.DIRECTORY
            Prov.DescriptorFlags.READ with ⟨s1, r⟩
        cases r with
        | ok fd2 =>
          simp [FilesystemChroot.get_directories, hp, hr] at h
          exact ⟨fd2, h.2.symm⟩
        | error e => simp [FilesystemChroot.get_directories, hp, hr] at h
  · intro self pf path of df d h
    simp only [TracingDescriptor.open_at] at h
    cases hr : (P.open_at s self.fd (path_flags_in pf) path (open_flags_in of)
        (descriptor_flags_in df)).2 with
    | ok fd2 =>
      rw [hr] at h
      simp [Except.map, Except.mapError] at h
      exact ⟨fd2, h.symm, rfl⟩
    | error e =>
      rw [hr] at h
      simp [Except.map, Except.mapError] at h
  · intro self st h
    simp only [TracingDescriptor.read_directory] at h
    cases hr : (P.read_directory s self.fd).2 with
    | ok h2 =>
      rw [hr] at h
      simp [Except.map, Except.mapError] at h
      exact ⟨h2, h.symm, rfl⟩
    | error e =>
      rw [hr] at h
      simp [Except.map, Except.mapError] at h
  · intro dirs d p h
    simp only [FilesystemTracing.get_directories, List.mem_map] at h
    obtain ⟨⟨fd, q⟩, hmem, heq⟩ := h
    obtain ⟨h1, h2⟩ := Prod.mk.injEq .. ▸ heq
    exact ⟨fd, h1.symm, h2 ▸ hmem⟩

/-- C2 witness: a concrete instantiation of the wrapping theorem with the
recording provider, exercising the open-at and read-directory conjuncts of
all three components and the preopen conjuncts. -/
theorem C2_policy_wrapping_witness :
    (∃ h, FilesystemReadOnly.descriptor_map 4 = FilesystemReadOnly.descriptor_map h ∧
      (logProvider.open_at [] 0 ⟨false⟩ "a/b" ⟨false, false, false, false⟩
        ⟨false, false, false, false, false, false⟩).2 = .ok h)
    ∧ (∃ fd, FilesystemTracing.descriptor_map 3 = FilesystemTracing.descriptor_map fd ∧
      (fd, "/host") ∈ [(3, "/host")]) := by
  constructor
  · exact (C2_policy_wrapping logProvider []).1 ⟨0⟩ ⟨false⟩ "a/b" ⟨false, false, false, false⟩
      ⟨false, false, false, false, false, false⟩ ⟨4⟩ (by decide)
  · exact (C2_policy_wrapping logProvider []).2.2.2.2.2.2.2.2 [(3, "/host")] ⟨3⟩ "/host"
      (by decide)

/-- C3 counterexample: `open_at` on a Read-Only Guard descriptor with the
requested descriptor flags containing only the mutate-directory bit is NOT
rejected with the read-only error — the call is forwarded to the provider
(the recording provider logs the request and the wrapped descriptor is
returned), contradicting the claim that a mutate-directory request is
rejected before forwarding. -/
theorem C3_open_at_gating_counterexample :
    ReadOnlyDescriptor.open_at logProvider ⟨0⟩ ([] : List String) ⟨false⟩ "p"
        ⟨false, false, false, false⟩ ⟨false, false, false, false, false, true⟩ =
      (["open-at p"], .ok ⟨2⟩)
    ∧ ReadOnlyDescriptor.open_at logProvider ⟨0⟩ ([] : List String) ⟨false⟩ "p"
        ⟨false, false, false, false⟩ ⟨false, false, false, false, false, true⟩ ≠
      ([], .error .ReadOnly) := by
  constructor
  · decide
  · decide

/-- C3 amended: the Read-Only Guard's `open_at` returns the read-only error
without forwarding whenever the open flags request create, exclusive-create
or truncate, or the requested descriptor flags include write,
file-integrity-sync, data-integrity-sync or requested-write-sync — but NOT
for the mutate-directory bit, which the code does not test.  When none of
the tested bits is requested (even if mutate-directory is), the call is
forwarded and the returned descriptor is wrapped in the same Read-Only
Guard. -/
theorem C3_open_at_gating_amended {σ : Type} (P : Provider σ) (self : ReadOnlyDescriptor)
    (s : σ) (pf : Exp.PathFlags) (path : String) (of : Exp.OpenFlags)
    (df : Exp.DescriptorFlags) :
    ((of.create || of.exclusive || of.truncate || df.write || df.file_integrity_sync ||
        df.data_integrity_sync || df.requested_write_sync) = true →
      ReadOnlyDescriptor.open_at P self s pf path of df = (s, .error .ReadOnly))
    ∧ ((of.create || of.exclusive || of.truncate || df.write || df.file_integrity_sync ||
        df.data_integrity_sync || df.requested_write_sync) = false →
      ReadOnlyDescriptor.open_at P self s pf path of df =
        ((P.open_at s self.fd (path_flags_in pf) path (open_flags_in of)
            (descriptor_flags_in df)).1,
          ((P.open_at s self.fd (path_flags_in pf) path (open_flags_in of)
            (descriptor_flags_in df)).2.map FilesystemReadOnly.descriptor_map).mapError
            error_code_map)) := by
  constructor
  · intro h
    simp only [ReadOnlyDescriptor.open_at, contains_CREATE, contains_EXCLUSIVE, contains_TRUNCATE,
      contains_WRITE, contains_FILE_INTEGRITY_SYNC, contains_DATA_INTEGRITY_SYNC,
      contains_REQUESTED_WRITE_SYNC, h, if_true]
  · intro h
    simp only [ReadOnlyDescriptor.open_at, contains_CREATE, contains_EXCLUSIVE, contains_TRUNCATE,
      contains_WRITE, contains_FILE_INTEGRITY_SYNC, contains_DATA_INTEGRITY_SYNC,
      contains_REQUESTED_WRITE_SYNC, h]
    simp

/-- C3 amended witness: at a concrete write request the guard denies, and at
a concrete request with only the mutate-directory bit the guard forwards to
the recording provider and wraps the result. -/
theorem C3_open_at_gating_amended_witness :
    ReadOnlyDescriptor.open_at logProvider ⟨0⟩ ([] : List String) ⟨false⟩ "p"
        ⟨false, false, false, false⟩ ⟨false, true, false, false, false, false⟩ =
      ([], .error .ReadOnly)
    ∧ ReadOnlyDescriptor.open_at logProvider ⟨0⟩ ([] : List String) ⟨false⟩ "p"
        ⟨false, false, false, false⟩ ⟨false, false, false, false, false, true⟩ =
      ((logProvider.open_at [] 0 (path_flags_in ⟨false⟩) "p"
          (open_flags_in ⟨false, false, false, false⟩)
          (descriptor_flags_in ⟨false, false, false, false, false, true⟩)).1,
        ((logProvider.open_at [] 0 (path_flags_in ⟨false⟩) "p"
          (open_flags_in ⟨false, false, false, false⟩)
          (descriptor_flags_in ⟨false, false, false, false, false, true⟩)).2.map
          FilesystemReadOnly.descriptor_map).mapError error_code_map) := by
  constructor
  · exact (C3_open_at_gating_amended logProvider ⟨0⟩ [] ⟨false⟩ "p" ⟨false, false, false, false⟩
      ⟨false, true, false, false, false, false⟩).1 (by decide)
  · exact (C3_open_at_gating_amended logProvider ⟨0⟩ [] ⟨false⟩ "p" ⟨false, false, false, false⟩
      ⟨false, false, false, false, false, true⟩).2 (by decide)

/-- C4 counterexample: on a confined descriptor, `open_at` with the absolute
path "/a/b" and with the root-relative path "a/b" issue DIFFERENT provider
requests and yield different results: the recording provider receives the
path string unchanged in both calls (its state records "open-at /a/b"
vs. "open-at a/b") and returns distinct handles, so a leading separator is
not treated as root-relative by the per-call path handling. -/
theorem C4_leading_slash_counterexample :
    FilesystemChrootDescriptor.open_at logProvider ⟨0⟩ ([] : List String) ⟨false⟩ "/a/b"
        ⟨false, false, false, false⟩ ⟨false, false, false, false, false, false⟩ =
      (["open-at /a/b"], .ok ⟨5⟩)
    ∧ FilesystemChrootDescriptor.open_at logProvider ⟨0⟩ ([] : List String) ⟨false⟩ "a/b"
        ⟨false, false, false, false⟩ ⟨false, false, false, false, false, false⟩ =
      (["open-at a/b"], .ok ⟨4⟩)
    ∧ FilesystemChrootDescriptor.open_at logProvider ⟨0⟩ ([] : List String) ⟨false⟩ "/a/b"
        ⟨false, false, false, false⟩ ⟨false, false, false, false, false, false⟩ ≠
      FilesystemChrootDescriptor.open_at logProvider ⟨0⟩ ([] : List String) ⟨false⟩ "a/b"
        ⟨false, false, false, false⟩ ⟨false, false, false, false, false, false⟩ := by
  refine ⟨by decide, by decide, by decide⟩

/-- C4 amended: leading-slash normalization happens only once, at startup:
`prefix_path` strips a single leading separator from its path argument, so
a slash-prefixed and an unprefixed form of the same suffix produce the same
confined root.  Per-call operations of the Confinement policy, by contrast,
pass their path argument to the provider verbatim — "/a/b" and "a/b" are
handed down as two distinct provider paths, with no reinterpretation by the
component. -/
theorem C4_path_handling_amended {σ : Type} (P : Provider σ)
    (self : FilesystemChrootDescriptor) (s : σ) :
    (∀ (store : Option String) (p : String), strHasLeadingSlash p = false →
      prefix_path store ("/" ++ p) = prefix_path store p)
    ∧ (∀ pf path of df, FilesystemChrootDescriptor.open_at P self s pf path of df =
        ((P.open_at s self.fd (path_flags_in pf) path (open_flags_in of)
            (descriptor_flags_in df)).1,
          ((P.open_at s self.fd (path_flags_in pf) path (open_flags_in of)
            (descriptor_flags_in df)).2.map FilesystemChroot.descriptor_map).mapError
            error_code_map))
    ∧ (∀ pf path, FilesystemChrootDescriptor.stat_at P self s pf path =
        ((P.stat_at s self.fd (path_flags_in pf) path).1,
          ((P.stat_at s self.fd (path_flags_in pf) path).2.map descriptor_stat_map).mapError
            error_code_map))
    ∧ (∀ path, FilesystemChrootDescriptor.create_directory_at P self s path =
        ((P.create_directory_at s self.fd path).1,
          (P.create_directory_at s self.fd path).2.mapError error_code_map))
    ∧ (∀ pf path a m, FilesystemChrootDescriptor.set_times_at P self s pf path a m =
        ((P.set_times_at s self.fd (path_flags_in pf) path (new_timestamp_map_in a)
            (new_timestamp_map_in m)).1,
          (P.set_times_at s self.fd (path_flags_in pf) path (new_timestamp_map_in a)
            (new_timestamp_map_in m)).2.mapError error_code_map))
    ∧ (∀ opf old_path nd new_path, FilesystemChrootDescriptor.link_at P self s opf old_path
          nd new_path =
        ((P.link_at s self.fd (path_flags_in opf) old_path
            (FilesystemChrootDescriptor.fd nd) new_path).1,
          (P.link_at s self.fd (path_flags_in opf) old_path
            (FilesystemChrootDescriptor.fd nd) new_path).2.mapError error_code_map))
    ∧ (∀ path, FilesystemChrootDescriptor.readlink_at P self s path =
        ((P.readlink_at s self.fd path).1,
          (P.readlink_at s self.fd path).2.mapError error_code_map))
    ∧ (∀ path, FilesystemChrootDescriptor.remove_directory_at P self s path =
        ((P.remove_directory_at s self.fd path).1,
          (P.remove_directory_at s self.fd path).2.mapError error_code_map))
    ∧ (∀ old_path nd new_path, FilesystemChrootDescriptor.rename_at P self s old_path
          nd new_path =
        ((P.rename_at s self.fd old_path (FilesystemChrootDescriptor.fd nd) new_path).1,
          (P.rename_at s self.fd old_path
            (FilesystemChrootDescriptor.fd nd) new_path).2.mapError error_code_map))
    ∧ (∀ old_path new_path, FilesystemChrootDescriptor.symlink_at P self s old_path new_path =
        ((P.symlink_at s self.fd old_path new_path).1,
          (P.symlink_at s self.fd old_path new_path).2.mapError error_code_map))
    ∧ (∀ path, FilesystemChrootDescriptor.unlink_file_at P self s path =
        ((P.unlink_file_at s self.fd path).1,
          (P.unlink_file_at s self.fd path).2.mapError error_code_map))
    ∧ (∀ pf path, FilesystemChrootDescriptor.metadata_hash_at P self s pf path =
        ((P.metadata_hash_at s self.fd (path_flags_in pf) path).1,
          ((P.metadata_hash_at s self.fd (path_flags_in pf) path).2.map
            metadata_hash_value_map).mapError error_code_map)) := by
  refine ⟨?_, fun _ _ _ _ => rfl, fun _ _ => rfl, fun _ => rfl, fun _ _ _ _ => rfl,
    fun _ _ _ _ => rfl, fun _ => rfl, fun _ => rfl, fun _ _ _ => rfl, fun _ _ => rfl,
    fun _ => rfl, fun _ _ => rfl⟩
  intro store p h
  rcases store with _ | cfg
  · rfl
  · simp [prefix_path, stripLeadingSlash_slash_append, stripLeadingSlash_of_no_slash p h]

/-- C4 amended witness: the startup normalization at a concrete suffix, and
a per-call verbatim forwarding instance at a concrete path. -/
theorem C4_path_handling_amended_witness :
    strHasLeadingSlash "a/b" = false
    ∧ prefix_path (some "root") ("/" ++ "a/b") = prefix_path (some "root") "a/b"
    ∧ FilesystemChrootDescriptor.stat_at logProvider ⟨0⟩ ([] : List String) ⟨false⟩ "a/b" =
      ((logProvider.stat_at [] 0 (path_flags_in ⟨false⟩) "a/b").1,
        ((logProvider.stat_at [] 0 (path_flags_in ⟨false⟩) "a/b").2.map
          descriptor_stat_map).mapError error_code_map) := by
  refine ⟨by decide, ?_, ?_⟩
  · exact (C4_path_handling_amended logProvider ⟨0⟩ []).1 (some "root") "a/b" (by decide)
  · exact (C4_path_handling_amended logProvider ⟨0⟩ ([] : List String)).2.2.1 ⟨false⟩ "a/b"

/-- C5: `get_flags` on a Read-Only-wrapped descriptor forwards to the
provider (the provider's state transition is exactly that of its own
`get_flags` call); a successful result is returned with the write,
mutate-directory and both integrity-sync bits cleared and the read and
requested-write-sync bits preserved — so the guest never observes any of
the cleared bits, however the provider set them; a provider error is passed
through `error_code_map`. -/
theorem C5_get_flags_stripping {σ : Type} (P : Provider σ) (self : ReadOnlyDescriptor)
    (s : σ) :
    (ReadOnlyDescriptor.get_flags P self s).1 = (P.get_flags s self.fd).1
    ∧ (∀ f, (P.get_flags s self.fd).2 = .ok f →
        (ReadOnlyDescriptor.get_flags P self s).2 =
          .ok ⟨f.read, false, false, false, f.requested_write_sync, false⟩)
    ∧ (∀ e, (P.get_flags s self.fd).2 = .error e →
        (ReadOnlyDescriptor.get_flags P self s).2 = .error (error_code_map e)) := by
  refine ⟨rfl, ?_, ?_⟩
  · intro f h
    simp [ReadOnlyDescriptor.get_flags, h, Except.map, Except.mapError,
      descriptor_flags_map_mirror, Exp.DescriptorFlags.difference, Exp.DescriptorFlags.WRITE,
      Exp.DescriptorFlags.FILE_INTEGRITY_SYNC, Exp.DescriptorFlags.DATA_INTEGRITY_SYNC,
      Exp.DescriptorFlags.MUTATE_DIRECTORY]
  · intro e h
    simp [ReadOnlyDescriptor.get_flags, h, Except.map, Except.mapError]

/-- C5 witness: with the recording provider, whose descriptor carries every
flag bit, the guard reports only the read and requested-write-sync bits. -/
theorem C5_get_flags_stripping_witness :
    (logProvider.get_flags [] 0).2 = .ok ⟨true, true, true, true, true, true⟩
    ∧ (ReadOnlyDescriptor.get_flags logProvider ⟨0⟩ []).2 =
      .ok ⟨true, false, false, false, true, false⟩ := by
  constructor
  · decide
  · exact (C5_get_flags_stripping logProvider ⟨0⟩ []).2.1 ⟨true, true, true, true, true, true⟩
      (by decide)

/-- C6: Confinement startup uses exactly the provider's first preopened
directory and ignores the rest: the confinement root comes from the
configuration store, a single leading separator is stripped from the
preopen path, the configured root value and the preopen path are joined
into one path, that path is opened as a directory (symlink-follow path
flag, directory open flag, read descriptor flag) relative to the first
preopen handle, and the component exports exactly one root pair: the opened
directory, policy-wrapped, under the name "/". -/
theorem C6_chroot_preopen_resolution {σ : Type} (P : Provider σ) (cfg : String) (s : σ)
    (fd : Nat) (path : String) (rest : List (Nat × String)) :
    prefix_path (some cfg) path =
      some (pathJoin (pathJoin "" cfg) (stripLeadingSlash path))
    ∧ (∀ s2 h,
        P.open_at s fd Prov.PathFlags.SYMLINK_FOLLOW
            (pathJoin (pathJoin "" cfg) (stripLeadingSlash path)) Prov.OpenFlags.DIRECTORY
            Prov.DescriptorFlags.READ = (s2, .ok h) →
        FilesystemChroot.get_directories P (some cfg) s ((fd, path) :: rest) =
          some (s2, [(FilesystemChroot.descriptor_map h, "/")])) := by
  refine ⟨rfl, ?_⟩
  intro s2 h hr
  simp [FilesystemChroot.get_directories, prefix_path, hr]

/-- C6 witness: with the recording provider, the configured root "sandbox"
and the single preopen (7, "/host"), the component opens "sandbox/host"
relative to handle 7 and exports one wrapped root named "/". -/
theorem C6_chroot_preopen_resolution_witness :
    prefix_path (some "sandbox") "/host" = some "sandbox/host"
    ∧ FilesystemChroot.get_directories logProvider (some "sandbox") ([] : List String)
        [(7, "/host")] =
      some (["open-at sandbox/host"], [(FilesystemChroot.descriptor_map 20, "/")]) := by
  constructor
  · exact (C6_chroot_preopen_resolution logProvider "sandbox" ([] : List String) 7 "/host"
      []).1.trans (by decide)
  · exact (C6_chroot_preopen_resolution logProvider "sandbox" ([] : List String) 7 "/host"
      []).2 ["open-at sandbox/host"] 20 (by decide)

/-- C7: Confinement initialization aborts (modelled as `none`, the `expect`
panics of the source) exactly when the configuration store lacks the
confinement-root key, or the provider reports no preopened directory, or
the computed confinement root path cannot be opened as a directory; in
every other case it returns the single confined root. -/
theorem C7_chroot_init_failure_semantics {σ : Type} (P : Provider σ) (store : Option String)
    (s : σ) (dirs : List (Nat × String)) :
    (store = none → FilesystemChroot.get_directories P store s dirs = none)
    ∧ (dirs = [] → FilesystemChroot.get_directories P store s dirs = none)
    ∧ (∀ cfg fd path rest, store = some cfg → dirs = (fd, path) :: rest →
        (∀ s2 e, P.open_at s fd Prov.PathFlags.SYMLINK_FOLLOW
            (pathJoin (pathJoin "" cfg) (stripLeadingSlash path)) Prov.OpenFlags.DIRECTORY
            Prov.DescriptorFlags.READ = (s2, .error e) →
          FilesystemChroot.get_directories P store s dirs = none)
        ∧ (∀ s2 h, P.open_at s fd Prov.PathFlags.SYMLINK_FOLLOW
            (pathJoin (pathJoin "" cfg) (stripLeadingSlash path)) Prov.OpenFlags.DIRECTORY
            Prov.DescriptorFlags.READ = (s2, .ok h) →
          FilesystemChroot.get_directories P store s dirs =
            some (s2, [(FilesystemChroot.descriptor_map h, "/")]))) := by
  refine ⟨?_, ?_, ?_⟩
  · intro h
    subst h
    rcases dirs with _ | ⟨⟨fd, path⟩, rest⟩ <;> simp [FilesystemChroot.get_directories, prefix_path]
  · intro h
    subst h
    rfl
  · intro cfg fd path rest hs hd
    subst hs
    subst hd
    constructor
    · intro s2 e hr
      simp [FilesystemChroot.get_directories, prefix_path, hr]
    · intro s2 h hr
      simp [FilesystemChroot.get_directories, prefix_path, hr]

/-- C7 witness: the three abort conditions and the success case at concrete
inputs — missing configuration, no preopen, and a successful open of the
computed root "root/host". -/
theorem C7_chroot_init_failure_semantics_witness :
    FilesystemChroot.get_directories logProvider none ([] : List String) [(0, "x")] = none
    ∧ FilesystemChroot.get_directories logProvider (some "root") ([] : List String) [] = none
    ∧ FilesystemChroot.get_directories logProvider (some "root") ([] : List String)
        [(0, "/host")] =
      some (["open-at root/host"], [(FilesystemChroot.descriptor_map 10, "/")]) := by
  refine ⟨?_, ?_, ?_⟩
  · exact (C7_chroot_init_failure_semantics logProvider none ([] : List String) [(0, "x")]).1 rfl
  · exact (C7_chroot_init_failure_semantics logProvider (some "root") ([] : List String) []).2.1
      rfl
  · exact ((C7_chroot_init_failure_semantics logProvider (some "root") ([] : List String)
      [(0, "/host")]).2.2 "root" 0 "/host" [] rfl rfl).2 ["open-at root/host"] 10 (by decide)

/-- Per-call Tracer transparency: one step through the Tracer performs the
provider's own transition, returns the provider's result translated by
`out_map`, and emits exactly one log record. -/
theorem tracingStep_spec {σ : Type} (P : Provider σ) (d : TracingDescriptor) (s : σ)
    (op : FsOp) :
    (tracingStep P d s op).1 = (providerStep P d.fd s op).1
    ∧ (tracingStep P d s op).2.2 = out_map (providerStep P d.fd s op).2
    ∧ (tracingStep P d s op).2.1.length = 1 := by
  cases op with
  | stat =>
    refine ⟨rfl, ?_, rfl⟩
    simp only [tracingStep, providerStep, TracingDescriptor.stat, out_map]
    rcases hps : P.stat s d.fd with ⟨s1, r⟩
    cases r <;> rfl
  | _ => exact ⟨rfl, rfl, rfl⟩

/-- Sequence-level Tracer transparency: running any list of operations
through the Tracer drives the provider through exactly the transitions of
the direct run, returns the pointwise-translated result list, and emits one
log record per call. -/
theorem tracingRun_spec {σ : Type} (P : Provider σ) (d : TracingDescriptor) :
    ∀ (ops : List FsOp) (s : σ),
      (tracingRun P d s ops).1 = (providerRun P d.fd s ops).1
      ∧ (tracingRun P d s ops).2.2 = (providerRun P d.fd s ops).2.map out_map
      ∧ (tracingRun P d s ops).2.1.length = ops.length := by
  intro ops
  induction ops with
  | nil => exact fun s => ⟨rfl, rfl, rfl⟩
  | cons op ops ih =>
    intro s
    obtain ⟨h1, h2, h3⟩ := tracingStep_spec P d s op
    obtain ⟨g1, g2, g3⟩ := ih (tracingStep P d s op).1
    rw [h1] at g1 g2 g3
    refine ⟨?_, ?_, ?_⟩
    · simpa [tracingRun, providerRun, h1] using g1
    · simpa [tracingRun, providerRun, h1, h2] using g2
    · simp [tracingRun, providerRun, h1, h3, g3, List.length_append, Nat.add_comm]

/-- C8: every operation on a Tracer-wrapped descriptor or directory-entry
stream emits exactly one log record — at trace level, with component name
"filesystem", whose message carries the operation name — always delegates to
the provider (the state transition is the provider's own), and returns the
provider's result translated through the structure-preserving type mapping;
consequently (final conjunct) any sequence of calls through the Tracer
returns the same sequence of values, up to the type mapping, as the same
sequence issued to the provider directly, with one log record per call. -/
theorem C8_tracer_transparency {σ : Type} (P : Provider σ) (self : TracingDescriptor)
    (stream_self : TracingDirectoryEntryStream) (s : σ) :
    (∀ offset, TracingDescriptor.read_via_stream P self s offset =
      ((P.read_via_stream s self.fd offset).1,
        [trace ("CALL wasi:filesystem/types#descriptor.read-via-stream FD=" ++ self.debugRepr ++
          " OFFSET=" ++ toString offset)],
        (P.read_via_stream s self.fd offset).2.mapError error_code_map))
    ∧ (∀ offset, TracingDescriptor.write_via_stream P self s offset =
      ((P.write_via_stream s self.fd offset).1,
        [trace ("CALL wasi:filesystem/types#descriptor.write-via-stream FD=" ++ self.debugRepr ++
          " OFFSET=" ++ toString offset)],
        (P.write_via_stream s self.fd offset).2.mapError error_code_map))
    ∧ TracingDescriptor.append_via_stream P self s =
      ((P.append_via_stream s self.fd).1,
        [trace ("CALL wasi:filesystem/types#descriptor.append-via-stream FD=" ++ self.debugRepr)],
        (P.append_via_stream s self.fd).2.mapError error_code_map)
    ∧ (∀ offset length advice, TracingDescriptor.advise P self s offset length advice =
      ((P.advise s self.fd offset length (advice_map_in advice)).1,
        [trace ("CALL wasi:filesystem/types#descriptor.advise FD=" ++ self.debugRepr)],
        (P.advise s self.fd offset length (advice_map_in advice)).2.mapError error_code_map))
    ∧ TracingDescriptor.sync_data P self s =
      ((P.sync_data s self.fd).1,
        [trace ("CALL wasi:filesystem/types#descriptor.sync-data FD=" ++ self.debugRepr)],
        (P.sync_data s self.fd).2.mapError error_code_map)
    ∧ TracingDescriptor.get_flags P self s =
      ((P.get_flags s self.fd).1,
        [trace ("CALL wasi:filesystem/types#descriptor.get-flags FD=" ++ self.debugRepr)],
        ((P.get_flags s self.fd).2.map descriptor_flags_map).mapError error_code_map)
    ∧ TracingDescriptor.get_type P self s =
      ((P.get_type s self.fd).1,
        [trace ("CALL wasi:filesystem/types#descriptor.get-type FD=" ++ self.debugRepr)],
        ((P.get_type s self.fd).2.map descriptor_type_map).mapError error_code_map)
    ∧ (∀ size, TracingDescriptor.set_size P self s size =
      ((P.set_size s self.fd size).1,
        [trace ("CALL wasi:filesystem/types#descriptor.set-size FD=" ++ self.debugRepr)],
        (P.set_size s self.fd size).2.mapError error_code_map))
    ∧ (∀ a m, TracingDescriptor.set_times P self s a m =
      ((P.set_times s self.fd (new_timestamp_map_in a) (new_timestamp_map_in m)).1,
        [trace ("CALL wasi:filesystem/types#descriptor.set-times FD=" ++ self.debugRepr)],
        (P.set_times s self.fd (new_timestamp_map_in a)
          (new_timestamp_map_in m)).2.mapError error_code_map))
    ∧ (∀ length offset, TracingDescriptor.read P self s length offset =
      ((P.read s self.fd length offset).1,
        [trace ("CALL wasi:filesystem/types#descriptor.read FD=" ++ self.debugRepr)],
        (P.read s self.fd length offset).2.mapError error_code_map))
    ∧ (∀ buffer offset, TracingDescriptor.write P self s buffer offset =
      ((P.write s self.fd buffer offset).1,
        [trace ("CALL wasi:filesystem/types#descriptor.write FD=" ++ self.debugRepr)],
        (P.write s self.fd buffer offset).2.mapError error_code_map))
    ∧ TracingDescriptor.read_directory P self s =
      ((P.read_directory s self.fd).1,
        [trace ("CALL wasi:filesystem/types#descriptor.read-directory FD=" ++ self.debugRepr)],
        ((P.read_directory s self.fd).2.map
          FilesystemTracing.directory_entry_stream_map).mapError error_code_map)
    ∧ TracingDescriptor.sync P self s =
      ((P.sync s self.fd).1,
        [trace ("CALL wasi:filesystem/types#descriptor.sync FD=" ++ self.debugRepr)],
        (P.sync s self.fd).2.mapError error_code_map)
    ∧ (∀ path, TracingDescriptor.create_directory_at P self s path =
      ((P.create_directory_at s self.fd path).1,
        [trace ("CALL wasi:filesystem/types#descriptor.create-directory-at FD=" ++
          self.debugRepr ++ " PATH=" ++ path)],
        (P.create_directory_at s self.fd path).2.mapError error_code_map))
    ∧ TracingDescriptor.stat P self s =
      ((P.stat s self.fd).1,
        [trace ("CALL wasi:filesystem/types#descriptor.stat FD=" ++ self.debugRepr)],
        ((P.stat s self.fd).2.map descriptor_stat_map).mapError error_code_map)
    ∧ (∀ pf path, TracingDescriptor.stat_at P self s pf path =
      ((P.stat_at s self.fd (path_flags_in pf) path).1,
        [trace ("CALL wasi:filesystem/types#descriptor.stat-at FD=" ++ self.debugRepr ++
          " PATH=" ++ path)],
        ((P.stat_at s self.fd (path_flags_in pf) path).2.map descriptor_stat_map).mapError
          error_code_map))
    ∧ (∀ pf path a m, TracingDescriptor.set_times_at P self s pf path a m =
      ((P.set_times_at s self.fd (path_flags_in pf) path (new_timestamp_map_in a)
          (new_timestamp_map_in m)).1,
        [trace ("CALL wasi:filesystem/types#descriptor.set-times-at FD=" ++ self.debugRepr ++
          " PATH=" ++ path)],
        (P.set_times_at s self.fd (path_flags_in pf) path (new_timestamp_map_in a)
          (new_timestamp_map_in m)).2.mapError error_code_map))
    ∧ (∀ opf old_path nd new_path, TracingDescriptor.link_at P self s opf old_path nd new_path =
      ((P.link_at s self.fd (path_flags_in opf) old_path (TracingDescriptor.fd nd) new_path).1,
        [trace ("CALL wasi:filesystem/types#descriptor.link-at FD=" ++ self.debugRepr ++
          " PATH=" ++ old_path)],
        (P.link_at s self.fd (path_flags_in opf) old_path (TracingDescriptor.fd nd)
          new_path).2.mapError error_code_map))
    ∧ (∀ pf path of df, TracingDescriptor.open_at P self s pf path of df =
      ((P.open_at s self.fd (path_flags_in pf) path (open_flags_in of)
          (descriptor_flags_in df)).1,
        [trace ("CALL wasi:filesystem/types#descriptor.open-at FD=" ++ self.debugRepr ++
          " PATH=" ++ path)],
        ((P.open_at s self.fd (path_flags_in pf) path (open_flags_in of)
          (descriptor_flags_in df)).2.map FilesystemTracing.descriptor_map).mapError
          error_code_map))
    ∧ (∀ path, TracingDescriptor.readlink_at P self s path =
      ((P.readlink_at s self.fd path).1,
        [trace ("CALL wasi:filesystem/types#descriptor.readlink-at FD=" ++ self.debugRepr ++
          " PATH=" ++ path)],
        (P.readlink_at s self.fd path).2.mapError error_code_map))
    ∧ (∀ path, TracingDescriptor.remove_directory_at P self s path =
      ((P.remove_directory_at s self.fd path).1,
        [trace ("CALL wasi:filesystem/types#descriptor.remove-directory-at FD=" ++
          self.debugRepr ++ " PATH=" ++ path)],
        (P.remove_directory_at s self.fd path).2.mapError error_code_map))
    ∧ (∀ old_path nd new_path, TracingDescriptor.rename_at P self s old_path nd new_path =
      ((P.rename_at s self.fd old_path (TracingDescriptor.fd nd) new_path).1,
        [trace ("CALL wasi:filesystem/types#descriptor.rename-at FD=" ++ self.debugRepr ++
          " PATH=" ++ old_path)],
        (P.rename_at s self.fd old_path (TracingDescriptor.fd nd) new_path).2.mapError
          error_code_map))
    ∧ (∀ old_path new_path, TracingDescriptor.symlink_at P self s old_path new_path =
      ((P.symlink_at s self.fd old_path new_path).1,
        [trace ("CALL wasi:filesystem/types#descriptor.symlink-at FD=" ++ self.debugRepr ++
          " PATH=" ++ old_path)],
        (P.symlink_at s self.fd old_path new_path).2.mapError error_code_map))
    ∧ (∀ path, TracingDescriptor.unlink_file_at P self s path =
      ((P.unlink_file_at s self.fd path).1,
        [trace ("CALL wasi:filesystem/types#descriptor.unlink-file-at FD=" ++ self.debugRepr ++
          " PATH=" ++ path)],
        (P.unlink_file_at s self.fd path).2.mapError error_code_map))
    ∧ (∀ other, TracingDescriptor.is_same_object P self s other =
      ((P.is_same_object s self.fd (TracingDescriptor.fd other)).1,
        [trace ("CALL wasi:filesystem/types#descriptor.is-same-object FD1=" ++ self.debugRepr ++
          " FD2=" ++ TracingDescriptor.debugRepr other)],
        (P.is_same_object s self.fd (TracingDescriptor.fd other)).2))
    ∧ TracingDescriptor.metadata_hash P self s =
      ((P.metadata_hash s self.fd).1,
        [trace ("CALL wasi:filesystem/types#descriptor.metadata-hash FD=" ++ self.debugRepr)],
        ((P.metadata_hash s self.fd).2.map metadata_hash_value_map).mapError error_code_map)
    ∧ (∀ pf path, TracingDescriptor.metadata_hash_at P self s pf path =
      ((P.metadata_hash_at s self.fd (path_flags_in pf) path).1,
        [trace ("CALL wasi:filesystem/types#descriptor.metadata-hash-at FD=" ++ self.debugRepr ++
          " PATH=" ++ path)],
        ((P.metadata_hash_at s self.fd (path_flags_in pf) path).2.map
          metadata_hash_value_map).mapError error_code_map))
    ∧ TracingDirectoryEntryStream.read_directory_entry P stream_self s =
      ((P.read_directory_entry s stream_self.des).1,
        [trace ("CALL wasi:filesystem/types#read-directory-entry SID=" ++
          stream_self.debugRepr)],
        ((P.read_directory_entry s stream_self.des).2.map (fun de =>
          de.map directory_entry_map)).mapError error_code_map)
    ∧ (∀ ops, (tracingRun P self s ops).1 = (providerRun P self.fd s ops).1
        ∧ (tracingRun P self s ops).2.2 = (providerRun P self.fd s ops).2.map out_map
        ∧ (tracingRun P self s ops).2.1.length = ops.length) :=
  ⟨fun _ => rfl, fun _ => rfl, rfl, fun _ _ _ => rfl, rfl, rfl, rfl, fun _ => rfl,
    fun _ _ => rfl, fun _ _ => rfl, fun _ _ => rfl, rfl, rfl, fun _ => rfl, rfl,
    fun _ _ => rfl, fun _ _ _ _ => rfl, fun _ _ _ _ => rfl, fun _ _ _ _ => rfl,
    fun _ => rfl, fun _ => rfl, fun _ _ _ => rfl, fun _ _ => rfl, fun _ => rfl,
    fun _ => rfl, rfl, fun _ _ => rfl, rfl,
    fun ops => tracingRun_spec P self ops s⟩

set_option maxRecDepth 40000 in
/-- C9: each type-mapping function is a bijection between the provider and
exported vocabularies that sends every case to the identically-named case
(witnessed by the WIT case names) and every flag bitset to the same bit
pattern; in particular every value round-trips through the mapping to an
equal value (shown explicitly for the timestamp and descriptor-flags
mappings, which have a conversion in both directions). -/
theorem C9_type_mapping_round_trip :
    Function.Bijective error_code_map
    ∧ (∀ c, (error_code_map c).caseName = c.caseName)
    ∧ Function.Bijective descriptor_type_map
    ∧ (∀ t, (descriptor_type_map t).caseName = t.caseName)
    ∧ Function.Bijective advice_map_in
    ∧ (∀ a, (advice_map_in a).caseName = a.caseName)
    ∧ Function.Bijective new_timestamp_map_in
    ∧ new_timestamp_map_in .NoChange = .NoChange
    ∧ new_timestamp_map_in .Now = .Now
    ∧ (∀ d, new_timestamp_map_in (.Timestamp d) = .Timestamp d)
    ∧ (∀ ts, new_timestamp_map_out (new_timestamp_map_in ts) = ts)
    ∧ Function.Bijective descriptor_flags_map
    ∧ (∀ f, (descriptor_flags_map f).bits = f.bits)
    ∧ Function.Bijective descriptor_flags_in
    ∧ (∀ f, (descriptor_flags_in f).bits = f.bits)
    ∧ (∀ f, descriptor_flags_in (descriptor_flags_map f) = f)
    ∧ (∀ f, descriptor_flags_map (descriptor_flags_in f) = f)
    ∧ Function.Bijective open_flags_in
    ∧ (∀ f, (open_flags_in f).bits = f.bits)
    ∧ Function.Bijective path_flags_in
    ∧ (∀ f, (path_flags_in f).bits = f.bits) := by
  refine ⟨by decide, by decide, by decide, by decide, by decide, by decide, ?_, rfl, rfl,
    fun _ => rfl, fun ts => by cases ts <;> rfl, by decide, by decide, by decide, by decide,
    by decide, by decide, by decide, by decide, by decide, by decide⟩
  exact Function.bijective_iff_has_inverse.mpr
    ⟨new_timestamp_map_out, fun x => by cases x <;> rfl, fun x => by cases x <;> rfl⟩

/-- C10: the flag conversions written `from_bits(x.bits()).unwrap()` never
panic: for every flag value of the source vocabulary, `from_bits` succeeds
on its bit pattern in the target vocabulary — both directions for descriptor
flags (argument conversion and `descriptor_flags_map`), and the argument
direction for open flags and path flags — so the `unwrap` failure branch is
unreachable and the exported operations are total in their flag arguments. -/
theorem C10_flag_conversions_never_panic :
    (∀ f : Exp.DescriptorFlags, (Prov.DescriptorFlags.ofBits f.bits).isSome = true)
    ∧ (∀ f : Prov.DescriptorFlags, (Exp.DescriptorFlags.ofBits f.bits).isSome = true)
    ∧ (∀ f : Exp.OpenFlags, (Prov.OpenFlags.ofBits f.bits).isSome = true)
    ∧ (∀ f : Exp.PathFlags, (Prov.PathFlags.ofBits f.bits).isSome = true) :=
  ⟨by decide, by decide, by decide, by decide⟩

end CFS
